import Mathlib

/-! Reference-counted COM objects, the context stack and the volume loader.

A shallow embedding of three source files:

* `dlls/msctf/documentmgr.c`      (namespace `Msctf`)
* `dlls/winegstreamer/video_encoder.c` (namespace `Winegstreamer`)
* `dlls/d3dx9_36/volume.c`        (namespace `D3dx9`)

Objects are passed explicitly as structure values.  Calls that leave the
translated file (virtual calls on foreign COM objects, heap primitives,
helpers defined in other files) are answered by a deterministic collaborator
that may look at the calls made so far, and every such call is appended to a
call log, so that "which calls happened, in which order" is a property of the
returned log.
-/

/-! ## Machine-level basics -/

/-- An address.  The null pointer is address `0`. -/
abbrev Ptr := Nat

/-- The null pointer. -/
def NULL : Ptr := 0

/-- An `HRESULT` is a signed 32-bit `LONG`. -/
abbrev HRESULT := Int

/-- The `FAILED(hr)` test of winerror.h: the sign bit is set. -/
def FAILED (hr : HRESULT) : Bool := decide (hr < 0)

/-- Success code `S_OK` (winerror.h). -/
def S_OK : HRESULT := 0
/-- Code `E_NOTIMPL`, 0x80004001 as a signed 32-bit value (winerror.h). -/
def E_NOTIMPL : HRESULT := 0x80004001 - 0x100000000
/-- Code `E_NOINTERFACE`, 0x80004002 (winerror.h). -/
def E_NOINTERFACE : HRESULT := 0x80004002 - 0x100000000
/-- Code `E_POINTER`, 0x80004003 (winerror.h). -/
def E_POINTER : HRESULT := 0x80004003 - 0x100000000
/-- Code `E_FAIL`, 0x80004005 (winerror.h). -/
def E_FAIL : HRESULT := 0x80004005 - 0x100000000
/-- Code `E_OUTOFMEMORY`, 0x8007000E (winerror.h). -/
def E_OUTOFMEMORY : HRESULT := 0x8007000E - 0x100000000
/-- Code `E_INVALIDARG`, 0x80070057 (winerror.h). -/
def E_INVALIDARG : HRESULT := 0x80070057 - 0x100000000
/-- Code `TF_E_STACKFULL`, 0x80040501 (msctf.idl). -/
def TF_E_STACKFULL : HRESULT := 0x80040501 - 0x100000000
/-- Code `D3DERR_INVALIDCALL`, 0x8876086C (d3d9.h). -/
def D3DERR_INVALIDCALL : HRESULT := 0x8876086C - 0x100000000
/-- Success code `D3D_OK` (d3d9.h). -/
def D3D_OK : HRESULT := 0

/-- Reduction of an integer to the range of a signed 32-bit `LONG`. -/
def LONG_wrap (x : Int) : Int := (x + 0x80000000) % 0x100000000 - 0x80000000

/-- The value of a `LONG` read as a `ULONG`. -/
def ULONG_of (x : Int) : Nat := (x % 0x100000000).toNat

/-- `InterlockedIncrement` on a `LONG`: the new value. -/
def InterlockedIncrement (v : Int) : Int := LONG_wrap (v + 1)

/-- `InterlockedDecrement` on a `LONG`: the new value. -/
def InterlockedDecrement (v : Int) : Int := LONG_wrap (v - 1)

/-- A 128-bit interface identifier, in the four fields of the C `GUID`
(the eight bytes of `Data4` are packed big-endian into one number). -/
structure GUID where
  Data1 : Nat
  Data2 : Nat
  Data3 : Nat
  Data4 : Nat
deriving DecidableEq, Repr

/-- `IsEqualGUID` / `IsEqualIID`: field-wise comparison. -/
def IsEqualGUID (a b : GUID) : Bool := decide (a = b)

/-- Identifier `IID_IUnknown` = 00000000-0000-0000-C000-000000000046 (unknwn.idl). -/
def IID_IUnknown : GUID := ⟨0x00000000, 0x0000, 0x0000, 0xC000000000000046⟩
/-- Identifier `IID_ITfDocumentMgr` = aa80e7f4-2021-11d2-93e0-0060b067b86e (msctf.idl). -/
def IID_ITfDocumentMgr : GUID := ⟨0xaa80e7f4, 0x2021, 0x11d2, 0x93e00060b067b86e⟩
/-- Identifier `IID_ITfContext` = aa80e7fd-2021-11d2-93e0-0060b067b86e (msctf.idl). -/
def IID_ITfContext : GUID := ⟨0xaa80e7fd, 0x2021, 0x11d2, 0x93e00060b067b86e⟩
/-- Identifier `IID_IMFTransform` = bf94c121-5b05-4e6f-8000-ba598961414d (mftransform.idl). -/
def IID_IMFTransform : GUID := ⟨0xbf94c121, 0x5b05, 0x4e6f, 0x8000ba598961414d⟩

/-- The two reference-counting methods every COM object has. -/
inductive RefCall where
  | AddRef
  | Release
deriving DecidableEq, Repr

namespace Msctf

/-- Flag `TF_POPF_ALL` (msctf.idl). -/
def TF_POPF_ALL : Nat := 0x0001

/-- The object of documentmgr.c: `refCount` and `contextStack[2]`
(the vtable pointer is constant and left out). -/
structure DocumentMgr where
  refCount : Int
  contextStack0 : Ptr
  contextStack1 : Ptr
deriving DecidableEq, Repr

/-- Calls that leave documentmgr.c, with what they returned. -/
inductive Event where
  | HeapAlloc (ret : Ptr)
  | HeapFree (mem : Ptr)
  | QueryInterface (obj : Ptr) (iid : GUID) (hr : HRESULT) (out : Ptr)
  | AddRef (obj : Ptr)
  | Release (obj : Ptr)
deriving DecidableEq, Repr

/-- The collaborators of documentmgr.c: the process heap and the foreign
context objects, each answering from the calls made so far. -/
structure Extern where
  HeapAlloc : List Event → Ptr
  QueryInterface : List Event → Ptr → GUID → HRESULT × Ptr

/-- `ITfContext_Release(ctx)` on a slot value when the slot is occupied
(the `if (This->contextStack[i]) ITfContext_Release(...)` idiom). -/
def releaseSlot (slot : Ptr) (tr : List Event) : List Event :=
  if slot ≠ NULL then tr ++ [Event.Release slot] else tr

/-- `ITfContext_AddRef(ctx)` on a slot value when the slot is occupied. -/
def addRefSlot (slot : Ptr) (tr : List Event) : List Event :=
  if slot ≠ NULL then tr ++ [Event.AddRef slot] else tr

/-- `DocumentMgr_Destructor`: releases both occupied slots, frees the object. -/
def DocumentMgr_Destructor (iface : Ptr) (This : DocumentMgr) (tr : List Event) : List Event :=
  let tr1 := releaseSlot This.contextStack0 tr
  let tr2 := releaseSlot This.contextStack1 tr1
  tr2 ++ [Event.HeapFree iface]

/-- `DocumentMgr_AddRef`: the new count and the updated object. -/
def DocumentMgr_AddRef (This : DocumentMgr) : Nat × DocumentMgr :=
  let v := InterlockedIncrement This.refCount
  (ULONG_of v, { This with refCount := v })

/-- `DocumentMgr_Release`: the new count, the object if it is still
allocated (`none` once the destructor has freed it) and the call log. -/
def DocumentMgr_Release (iface : Ptr) (This : DocumentMgr) (tr : List Event) :
    Nat × Option DocumentMgr × List Event :=
  let v := InterlockedDecrement This.refCount
  let ret := ULONG_of v
  if ret = 0 then (ret, none, DocumentMgr_Destructor iface { This with refCount := v } tr)
  else (ret, some { This with refCount := v }, tr)

/-- `DocumentMgr_QueryInterface`: result, the value written to `*ppvOut`,
and the updated object. -/
def DocumentMgr_QueryInterface (iface : Ptr) (This : DocumentMgr) (iid : GUID) :
    HRESULT × Ptr × DocumentMgr :=
  let ppvOut0 : Ptr := NULL
  let ppvOut : Ptr :=
    if IsEqualGUID iid IID_IUnknown || IsEqualGUID iid IID_ITfDocumentMgr then iface else ppvOut0
  if ppvOut ≠ NULL then (S_OK, ppvOut, (DocumentMgr_AddRef This).2)
  else (E_NOINTERFACE, ppvOut, This)

/-- `DocumentMgr_Push`. -/
def DocumentMgr_Push (ext : Extern) (This : DocumentMgr) (pic : Ptr) (tr : List Event) :
    HRESULT × DocumentMgr × List Event :=
  if This.contextStack1 ≠ NULL then (TF_E_STACKFULL, This, tr)
  else if pic = NULL then (E_INVALIDARG, This, tr)
  else
    let r := ext.QueryInterface tr pic IID_ITfContext
    let tr1 := tr ++ [Event.QueryInterface pic IID_ITfContext r.1 r.2]
    if FAILED r.1 then (E_INVALIDARG, This, tr1)
    else (S_OK, { This with contextStack1 := This.contextStack0, contextStack0 := r.2 }, tr1)

/-- `DocumentMgr_Pop`. -/
def DocumentMgr_Pop (This : DocumentMgr) (dwFlags : Nat) (tr : List Event) :
    HRESULT × DocumentMgr × List Event :=
  if dwFlags = TF_POPF_ALL then
    let tr1 := releaseSlot This.contextStack0 tr
    let tr2 := releaseSlot This.contextStack1 tr1
    (S_OK, { This with contextStack0 := NULL, contextStack1 := NULL }, tr2)
  else if dwFlags ≠ 0 then (E_INVALIDARG, This, tr)
  else if This.contextStack0 = NULL then (E_FAIL, This, tr)
  else
    (S_OK, { This with contextStack0 := This.contextStack1, contextStack1 := NULL },
      tr ++ [Event.Release This.contextStack0])

/-- `DocumentMgr_GetTop`: `ppic` is the address of the output slot; the
second component is the value stored there, if one is stored. -/
def DocumentMgr_GetTop (This : DocumentMgr) (ppic : Ptr) (tr : List Event) :
    HRESULT × Option Ptr × DocumentMgr × List Event :=
  if ppic = NULL then (E_INVALIDARG, none, This, tr)
  else (S_OK, some This.contextStack0, This, addRefSlot This.contextStack0 tr)

/-- `DocumentMgr_GetBase`. -/
def DocumentMgr_GetBase (This : DocumentMgr) (ppic : Ptr) (tr : List Event) :
    HRESULT × Option Ptr × DocumentMgr × List Event :=
  if ppic = NULL then (E_INVALIDARG, none, This, tr)
  else (S_OK, some This.contextStack1, This, addRefSlot This.contextStack1 tr)

/-- `DocumentMgr_EnumContexts`: a stub. -/
def DocumentMgr_EnumContexts (_This : DocumentMgr) : HRESULT := E_NOTIMPL

/-- `DocumentMgr_Constructor`: result, the value written to `*ppOut` if one
is written, the new object if one was allocated, and the call log.
`HEAP_ZERO_MEMORY` leaves both slots null. -/
def DocumentMgr_Constructor (ext : Extern) (tr : List Event) :
    HRESULT × Option Ptr × Option DocumentMgr × List Event :=
  let This := ext.HeapAlloc tr
  let tr1 := tr ++ [Event.HeapAlloc This]
  if This = NULL then (E_OUTOFMEMORY, none, none, tr1)
  else (S_OK, some This, some { refCount := 1, contextStack0 := NULL, contextStack1 := NULL }, tr1)

/-- One reference-counting call on an allocated object, through the vtable:
the returned count, the object (`none` once freed) and the call log. -/
def refCall (iface : Ptr) (c : RefCall) (This : DocumentMgr) (tr : List Event) :
    Nat × Option DocumentMgr × List Event :=
  match c with
  | RefCall.AddRef => ((DocumentMgr_AddRef This).1, some (DocumentMgr_AddRef This).2, tr)
  | RefCall.Release => DocumentMgr_Release iface This tr

/-- A sequence of reference-counting calls on one object.  The state is the
object (`none` once freed), the call log and the values returned so far.
A call on a freed object has no defined behaviour: the run is `none`. -/
def refCalls (iface : Ptr) :
    List RefCall → Option DocumentMgr × List Event × List (RefCall × Nat) →
      Option (Option DocumentMgr × List Event × List (RefCall × Nat))
  | [], st => some st
  | _ :: _, (none, _, _) => none
  | c :: cs, (some This, tr, rets) =>
      let r := refCall iface c This tr
      refCalls iface cs (r.2.1, r.2.2, rets ++ [(c, r.1)])

/-- How often the destructor of the object at `iface` ran: it is the only
code that frees the object. -/
def destructorRuns (iface : Ptr) (tr : List Event) : Nat :=
  tr.count (Event.HeapFree iface)

/-- What one logged call does to the reference count of the foreign object
`obj`, by the COM rules: `AddRef` and a successful `QueryInterface` that hands
out `obj` add one reference, `Release` drops one. -/
def refEffect (obj : Ptr) : Event → Int
  | Event.AddRef o => if o = obj then 1 else 0
  | Event.Release o => if o = obj then -1 else 0
  | Event.QueryInterface _ _ hr out => if FAILED hr = false ∧ out = obj then 1 else 0
  | Event.HeapAlloc _ => 0
  | Event.HeapFree _ => 0

/-- The net change of the reference count of `obj` over a call log. -/
def refDelta (obj : Ptr) (tr : List Event) : Int :=
  (tr.map (refEffect obj)).sum

/-- A sample collaborator: the heap hands out address 0x1000, and exactly the
objects at even addresses expose the context interface (on themselves). -/
def sampleExtern : Extern where
  HeapAlloc := fun _ => 0x1000
  QueryInterface := fun _ obj iid =>
    if iid = IID_ITfContext ∧ obj % 2 = 0 then (S_OK, obj) else (E_NOINTERFACE, NULL)

/-- The four context-stack methods of the vtable, with their arguments. -/
inductive StackCall where
  | Push (pic : Ptr)
  | Pop (dwFlags : Nat)
  | GetTop (ppic : Ptr)
  | GetBase (ppic : Ptr)
deriving DecidableEq, Repr

/-- Whether a call is a `Push` or a `Pop`. -/
def StackCall.isPushPop : StackCall → Bool
  | StackCall.Push _ => true
  | StackCall.Pop _ => true
  | StackCall.GetTop _ => false
  | StackCall.GetBase _ => false

/-- One context-stack call through the vtable: the result, the object after
the call and the call log. -/
def stackCall (ext : Extern) (c : StackCall) (This : DocumentMgr) (tr : List Event) :
    HRESULT × DocumentMgr × List Event :=
  match c with
  | StackCall.Push pic => DocumentMgr_Push ext This pic tr
  | StackCall.Pop dwFlags => DocumentMgr_Pop This dwFlags tr
  | StackCall.GetTop ppic =>
      ((DocumentMgr_GetTop This ppic tr).1, (DocumentMgr_GetTop This ppic tr).2.2.1,
        (DocumentMgr_GetTop This ppic tr).2.2.2)
  | StackCall.GetBase ppic =>
      ((DocumentMgr_GetBase This ppic tr).1, (DocumentMgr_GetBase This ppic tr).2.2.1,
        (DocumentMgr_GetBase This ppic tr).2.2.2)

/-- A sequence of context-stack calls on one manager: the object and the call
log after the last call. -/
def stackCalls (ext : Extern) : List StackCall → DocumentMgr × List Event →
    DocumentMgr × List Event
  | [], st => st
  | c :: cs, st =>
      stackCalls ext cs ((stackCall ext c st.1 st.2).2.1, (stackCall ext c st.1 st.2).2.2)

/-- The number of slots of the manager that hold `obj`. -/
def slotsHolding (This : DocumentMgr) (obj : Ptr) : Int :=
  (if This.contextStack0 = obj then 1 else 0) + (if This.contextStack1 = obj then 1 else 0)

/-- The COM rule for `QueryInterface`, as far as `DocumentMgr_Push` relies on
it: when a non-null object answers the query for the context interface with
success, the interface pointer it stores is not null. -/
def conforming (ext : Extern) : Prop :=
  ∀ (tr : List Event) (obj : Ptr), obj ≠ NULL →
    FAILED (ext.QueryInterface tr obj IID_ITfContext).1 = false →
      (ext.QueryInterface tr obj IID_ITfContext).2 ≠ NULL

/-- A collaborator with one object that breaks the COM rule: the object at
0x4000 answers every query with `S_OK` and a null pointer.  All other objects
behave as with `sampleExtern`. -/
def rogueExtern : Extern where
  HeapAlloc := fun _ => 0x1000
  QueryInterface := fun tr obj iid =>
    if obj = 0x4000 then (S_OK, NULL) else sampleExtern.QueryInterface tr obj iid

end Msctf

/-! ## dlls/winegstreamer/video_encoder.c -/

namespace Winegstreamer

/-- The object of video_encoder.c: `refcount` and the owned attribute
store.  `IMFTransform_iface` is the first member, so the interface pointer
and the object address coincide. -/
structure video_encoder where
  refcount : Int
  attributes : Ptr
deriving DecidableEq, Repr

/-- Calls that leave video_encoder.c, with what they returned.  The
attribute written by `IMFAttributes_SetUINT32` is always
`MFT_ENCODER_SUPPORTS_CONFIG_EVENT`, with the value given. -/
inductive Event where
  | check_video_transform_support (hr : HRESULT)
  | calloc (ret : Ptr)
  | free (mem : Ptr)
  | MFCreateAttributes (size : Nat) (hr : HRESULT) (out : Ptr)
  | IMFAttributes_SetUINT32 (attributes : Ptr) (value : Nat) (hr : HRESULT)
  | IMFAttributes_AddRef (attributes : Ptr)
  | IMFAttributes_Release (attributes : Ptr)
deriving DecidableEq, Repr

/-- The collaborators of video_encoder.c, each answering from the calls made
so far.  `check_video_transform_support` is only ever asked about the fixed
NV12 to H.264 1920x1080 pair. -/
structure Extern where
  check_video_transform_support : List Event → HRESULT
  calloc : List Event → Ptr
  MFCreateAttributes : List Event → Nat → HRESULT × Ptr
  IMFAttributes_SetUINT32 : List Event → Ptr → Nat → HRESULT

/-- `transform_AddRef`: the new count and the updated object. -/
def transform_AddRef (encoder : video_encoder) : Nat × video_encoder :=
  let refcount := InterlockedIncrement encoder.refcount
  (ULONG_of refcount, { encoder with refcount := refcount })

/-- `transform_Release`: the new count, the object if still allocated, and
the call log.  At zero the attribute store is released and the object freed. -/
def transform_Release (iface : Ptr) (encoder : video_encoder) (tr : List Event) :
    Nat × Option video_encoder × List Event :=
  let v := InterlockedDecrement encoder.refcount
  let refcount := ULONG_of v
  if refcount = 0 then
    (refcount, none, tr ++ [Event.IMFAttributes_Release encoder.attributes, Event.free iface])
  else (refcount, some { encoder with refcount := v }, tr)

/-- `transform_QueryInterface`: result, the value written to `*out`, and the
updated object. -/
def transform_QueryInterface (iface : Ptr) (encoder : video_encoder) (iid : GUID) :
    HRESULT × Ptr × video_encoder :=
  if IsEqualGUID iid IID_IMFTransform || IsEqualGUID iid IID_IUnknown then
    (S_OK, iface, (transform_AddRef encoder).2)
  else (E_NOINTERFACE, NULL, encoder)

/-- `transform_GetStreamLimits`: the four values written. -/
def transform_GetStreamLimits : HRESULT × Nat × Nat × Nat × Nat := (S_OK, 1, 1, 1, 1)

/-- `transform_GetStreamCount`: the two values written. -/
def transform_GetStreamCount : HRESULT × Nat × Nat := (S_OK, 1, 1)

/-- `transform_GetAttributes`: `attributes` is the address of the output
slot; the second component is the value stored there, if one is stored. -/
def transform_GetAttributes (encoder : video_encoder) (attributes : Ptr) (tr : List Event) :
    HRESULT × Option Ptr × List Event :=
  if attributes = NULL then (E_POINTER, none, tr)
  else (S_OK, some encoder.attributes, tr ++ [Event.IMFAttributes_AddRef encoder.attributes])

/-- The `failed:` exit of `video_encoder_create`. -/
def video_encoder_create_failed (p : Ptr) (encoder : video_encoder) (tr : List Event) :
    List Event :=
  let tr1 := if encoder.attributes ≠ NULL then
    tr ++ [Event.IMFAttributes_Release encoder.attributes] else tr
  tr1 ++ [Event.free p]

/-- `video_encoder_create`: result, the new object with its address if one
is handed out, and the call log. -/
def video_encoder_create (ext : Extern) (tr : List Event) :
    HRESULT × Option (Ptr × video_encoder) × List Event :=
  let p := ext.calloc tr
  let tr1 := tr ++ [Event.calloc p]
  if p = NULL then (E_OUTOFMEMORY, none, tr1)
  else
    let a := ext.MFCreateAttributes tr1 16
    let tr2 := tr1 ++ [Event.MFCreateAttributes 16 a.1 a.2]
    let encoder : video_encoder := { refcount := 1, attributes := a.2 }
    if FAILED a.1 then (a.1, none, video_encoder_create_failed p encoder tr2)
    else
      let hr := ext.IMFAttributes_SetUINT32 tr2 encoder.attributes 1
      let tr3 := tr2 ++ [Event.IMFAttributes_SetUINT32 encoder.attributes 1 hr]
      if FAILED hr then (hr, none, video_encoder_create_failed p encoder tr3)
      else (S_OK, some (p, encoder), tr3)

/-- `h264_encoder_create`: result, the value written to `*out` if one is
written, the encoder with its address if it is still allocated on return,
and the call log.  (`video_encoder_create` hands out an object whenever it
succeeds, so the `none` arm after the `FAILED` test is never taken.) -/
def h264_encoder_create (ext : Extern) (riid : GUID) (tr : List Event) :
    HRESULT × Option Ptr × Option (Ptr × video_encoder) × List Event :=
  let hr0 := ext.check_video_transform_support tr
  let tr1 := tr ++ [Event.check_video_transform_support hr0]
  if FAILED hr0 then (hr0, none, none, tr1)
  else
    let c := video_encoder_create ext tr1
    if FAILED c.1 then (c.1, none, none, c.2.2)
    else
      match c.2.1 with
      | none => (c.1, none, none, c.2.2)
      | some (p, encoder) =>
        let q := transform_QueryInterface p encoder riid
        let r := transform_Release p q.2.2 c.2.2
        (q.1, some q.2.1, r.2.1.map (fun e => (p, e)), r.2.2)

/-- One reference-counting call on an allocated encoder, through the vtable. -/
def refCall (iface : Ptr) (c : RefCall) (encoder : video_encoder) (tr : List Event) :
    Nat × Option video_encoder × List Event :=
  match c with
  | RefCall.AddRef => ((transform_AddRef encoder).1, some (transform_AddRef encoder).2, tr)
  | RefCall.Release => transform_Release iface encoder tr

/-- A sequence of reference-counting calls on one encoder.  A call on a
freed object has no defined behaviour: the run is `none`. -/
def refCalls (iface : Ptr) :
    List RefCall → Option video_encoder × List Event × List (RefCall × Nat) →
      Option (Option video_encoder × List Event × List (RefCall × Nat))
  | [], st => some st
  | _ :: _, (none, _, _) => none
  | c :: cs, (some encoder, tr, rets) =>
      let r := refCall iface c encoder tr
      refCalls iface cs (r.2.1, r.2.2, rets ++ [(c, r.1)])

/-- How often the destruction branch of `transform_Release` ran for the
encoder at `iface`: each run frees the object once. -/
def destructorRuns (iface : Ptr) (tr : List Event) : Nat :=
  tr.count (Event.free iface)

/-- How often the attribute store at `attributes` was released. -/
def attributeReleases (attributes : Ptr) (tr : List Event) : Nat :=
  tr.count (Event.IMFAttributes_Release attributes)

/-- A sample collaborator: H.264 encoding is supported, the heap hands out
address 0x1000, and the attribute store is created at 0x5000. -/
def sampleExtern : Extern where
  check_video_transform_support := fun _ => S_OK
  calloc := fun _ => 0x1000
  MFCreateAttributes := fun _ _ => (S_OK, 0x5000)
  IMFAttributes_SetUINT32 := fun _ _ _ => S_OK

end Winegstreamer

/-! ## dlls/d3dx9_36/volume.c

The two memory-level entry points, `D3DXLoadVolumeFromMemory` and
`D3DXLoadVolumeFromVolume`, with the helper `set_d3dbox`. -/

namespace D3dx9

/-- Format `D3DFMT_UNKNOWN` (d3d9types.h). -/
def D3DFMT_UNKNOWN : Nat := 0
/-- Value `D3DX_DEFAULT`, `(UINT)-1` (d3dx9.h). -/
def D3DX_DEFAULT : Nat := 0xFFFFFFFF
/-- Flag `D3DX_FILTER_TRIANGLE` (d3dx9tex.h). -/
def D3DX_FILTER_TRIANGLE : Nat := 0x00000004
/-- Flag `D3DX_FILTER_DITHER` (d3dx9tex.h). -/
def D3DX_FILTER_DITHER : Nat := 0x00080000
/-- Flag `D3DLOCK_READONLY` (d3d9types.h). -/
def D3DLOCK_READONLY : Nat := 0x00000010

/-- The `D3DBOX` of d3d9types.h: six `UINT` bounds. -/
structure D3DBOX where
  Left : Nat
  Top : Nat
  Right : Nat
  Bottom : Nat
  Front : Nat
  Back : Nat
deriving DecidableEq, Repr

/-- The fields of `D3DVOLUME_DESC` that volume.c reads. -/
structure D3DVOLUME_DESC where
  Format : Nat
  Width : Nat
  Height : Nat
  Depth : Nat
deriving DecidableEq, Repr

/-- The `D3DLOCKED_BOX` of d3d9types.h. -/
structure D3DLOCKED_BOX where
  RowPitch : Int
  SlicePitch : Int
  pBits : Ptr
deriving DecidableEq, Repr

/-- The `RECT` of windef.h: four `LONG` bounds. -/
structure RECT where
  left : Int
  top : Int
  right : Int
  bottom : Int
deriving DecidableEq, Repr

/-- The `enum format_type` of d3dx9_private.h. -/
inductive format_type where
  | FORMAT_ARGB
  | FORMAT_ARGBF16
  | FORMAT_ARGBF
  | FORMAT_DXT
  | FORMAT_INDEX
  | FORMAT_UNKNOWN
deriving DecidableEq, Repr

/-- A `struct pixel_format_desc` of d3dx9_private.h, cut down to the format
it describes, its block size and its `type`; volume.c reads `type` only and
hands the descriptor on. -/
structure pixel_format_desc where
  format : Nat
  block_width : Nat
  block_height : Nat
  type : format_type
deriving DecidableEq, Repr

/-- The `struct d3dx_pixels` of d3dx9_private.h: the record of what
`set_d3dx_pixels` is given. -/
structure d3dx_pixels where
  data : Ptr
  row_pitch : Nat
  slice_pitch : Nat
  palette : Ptr
  width : Nat
  height : Nat
  depth : Nat
  unaligned_rect : RECT
deriving DecidableEq, Repr

/-- Calls on the volume objects and the conversion call, with what they
returned. -/
inductive Event where
  | GetDesc (volume : Ptr)
  | LockBox (volume : Ptr) (box : Option D3DBOX) (flags : Nat) (hr : HRESULT)
      (locked_box : D3DLOCKED_BOX)
  | UnlockBox (volume : Ptr)
  | d3dx_load_pixels_from_pixels (dst_pixels src_pixels : d3dx_pixels) (filter color_key : Nat)
      (hr : HRESULT)
deriving DecidableEq, Repr

/-- The collaborators of volume.c.  The volume objects and the conversion
answer from the calls made so far; the three pure helpers of surface.c and
util.c answer from their arguments. -/
structure Extern where
  GetDesc : List Event → Ptr → D3DVOLUME_DESC
  LockBox : List Event → Ptr → Option D3DBOX → Nat → HRESULT × D3DLOCKED_BOX
  get_format_info : Nat → pixel_format_desc
  d3dx_pixels_init : Ptr → Nat → Nat → Ptr → Nat → Nat → Nat → Nat → Nat → Nat → Nat →
    HRESULT × d3dx_pixels
  get_aligned_rect : Nat → Nat → Nat → Nat → Nat → Nat → pixel_format_desc → RECT
  d3dx_load_pixels_from_pixels : List Event → d3dx_pixels → pixel_format_desc → d3dx_pixels →
    pixel_format_desc → Nat → Nat → HRESULT

/-- `set_d3dbox`. -/
def set_d3dbox (left top right bottom front back : Nat) : D3DBOX :=
  { Left := left, Top := top, Right := right, Bottom := bottom, Front := front, Back := back }

/-- `SetRect` of user32, on `UINT` arguments converted to `LONG`. -/
def SetRect (left top right bottom : Nat) : RECT :=
  { left := LONG_wrap left, top := LONG_wrap top, right := LONG_wrap right,
    bottom := LONG_wrap bottom }

/-- `OffsetRect` of user32. -/
def OffsetRect (rc : RECT) (dx dy : Int) : RECT :=
  { left := LONG_wrap (rc.left + dx), top := LONG_wrap (rc.top + dy),
    right := LONG_wrap (rc.right + dx), bottom := LONG_wrap (rc.bottom + dy) }

/-- `set_d3dx_pixels` of d3dx9_private.h. -/
def set_d3dx_pixels (data : Ptr) (row_pitch slice_pitch : Nat) (palette : Ptr)
    (width height depth : Nat) (unaligned_rect : RECT) : d3dx_pixels :=
  { data := data, row_pitch := row_pitch, slice_pitch := slice_pitch, palette := palette,
    width := width, height := height, depth := depth, unaligned_rect := unaligned_rect }

/-- Subtraction of two `UINT` values. -/
def UINT_sub (a b : Nat) : Nat := ULONG_of ((a : Int) - (b : Int))

/-- The destination box `D3DXLoadVolumeFromMemory` works on: the whole
volume when none is given, the given box when it passes the three range
tests, and `none` when a test rejects it. -/
def resolve_dst_box (dst_box : Option D3DBOX) (desc : D3DVOLUME_DESC) : Option D3DBOX :=
  match dst_box with
  | none => some (set_d3dbox 0 0 desc.Width desc.Height 0 desc.Depth)
  | some b =>
    if b.Left ≥ b.Right ∨ b.Right > desc.Width then none
    else if b.Top ≥ b.Bottom ∨ b.Bottom > desc.Height then none
    else if b.Front ≥ b.Back ∨ b.Back > desc.Depth then none
    else some b

/-- `D3DXLoadVolumeFromMemory`: the result and the call log. -/
def D3DXLoadVolumeFromMemory (ext : Extern) (dst_volume dst_palette : Ptr)
    (dst_box : Option D3DBOX) (src_memory : Ptr) (src_format src_row_pitch src_slice_pitch : Nat)
    (src_palette : Ptr) (src_box : Option D3DBOX) (filter color_key : Nat) (tr : List Event) :
    HRESULT × List Event :=
  if dst_volume = NULL ∨ src_memory = NULL then (D3DERR_INVALIDCALL, tr)
  else
    match src_box with
    | none => (D3DERR_INVALIDCALL, tr)
    | some sb =>
      if src_format = D3DFMT_UNKNOWN ∨ sb.Left ≥ sb.Right ∨ sb.Top ≥ sb.Bottom
          ∨ sb.Front ≥ sb.Back then (E_FAIL, tr)
      else
        let filter1 :=
          if filter = D3DX_DEFAULT then D3DX_FILTER_TRIANGLE ||| D3DX_FILTER_DITHER else filter
        let src_format_desc := ext.get_format_info src_format
        if src_format_desc.type = format_type.FORMAT_UNKNOWN then (E_NOTIMPL, tr)
        else
          let desc := ext.GetDesc tr dst_volume
          let tr1 := tr ++ [Event.GetDesc dst_volume]
          let dst_format_desc := ext.get_format_info desc.Format
          if dst_format_desc.type = format_type.FORMAT_UNKNOWN then (E_NOTIMPL, tr1)
          else
            match resolve_dst_box dst_box desc with
            | none => (D3DERR_INVALIDCALL, tr1)
            | some db =>
              let init := ext.d3dx_pixels_init src_memory src_row_pitch src_slice_pitch
                src_palette src_format sb.Left sb.Top sb.Right sb.Bottom sb.Front sb.Back
              if FAILED init.1 then (init.1, tr1)
              else
                let dst_rect_aligned := ext.get_aligned_rect db.Left db.Top db.Right db.Bottom
                  desc.Width desc.Height dst_format_desc
                let dst_box_aligned := set_d3dbox (ULONG_of dst_rect_aligned.left)
                  (ULONG_of dst_rect_aligned.top) (ULONG_of dst_rect_aligned.right)
                  (ULONG_of dst_rect_aligned.bottom) db.Front db.Back
                let l := ext.LockBox tr1 dst_volume (some dst_box_aligned) 0
                let tr2 := tr1 ++ [Event.LockBox dst_volume (some dst_box_aligned) 0 l.1 l.2]
                if FAILED l.1 then (l.1, tr2)
                else
                  let dst_rect_unaligned := OffsetRect
                    (SetRect db.Left db.Top db.Right db.Bottom)
                    (-dst_rect_aligned.left) (-dst_rect_aligned.top)
                  let dst_pixels := set_d3dx_pixels l.2.pBits (ULONG_of l.2.RowPitch)
                    (ULONG_of l.2.SlicePitch) dst_palette
                    (UINT_sub dst_box_aligned.Right dst_box_aligned.Left)
                    (UINT_sub dst_box_aligned.Bottom dst_box_aligned.Top)
                    (UINT_sub dst_box_aligned.Back dst_box_aligned.Front) dst_rect_unaligned
                  let hr := ext.d3dx_load_pixels_from_pixels tr2 dst_pixels dst_format_desc
                    init.2 src_format_desc filter1 color_key
                  (hr, tr2 ++ [Event.d3dx_load_pixels_from_pixels dst_pixels init.2 filter1
                    color_key hr, Event.UnlockBox dst_volume])

/-- `D3DXLoadVolumeFromVolume`: the result and the call log. -/
def D3DXLoadVolumeFromVolume (ext : Extern) (dst_volume dst_palette : Ptr)
    (dst_box : Option D3DBOX) (src_volume src_palette : Ptr) (src_box : Option D3DBOX)
    (filter color_key : Nat) (tr : List Event) : HRESULT × List Event :=
  if dst_volume = NULL ∨ src_volume = NULL then (D3DERR_INVALIDCALL, tr)
  else
    let desc := ext.GetDesc tr src_volume
    let tr1 := tr ++ [Event.GetDesc src_volume]
    let box : D3DBOX :=
      match src_box with
      | none => { Left := 0, Top := 0, Right := desc.Width, Bottom := desc.Height, Front := 0,
                  Back := desc.Depth }
      | some b => b
    let l := ext.LockBox tr1 src_volume none D3DLOCK_READONLY
    let tr2 := tr1 ++ [Event.LockBox src_volume none D3DLOCK_READONLY l.1 l.2]
    if FAILED l.1 then (l.1, tr2)
    else
      let r := D3DXLoadVolumeFromMemory ext dst_volume dst_palette dst_box l.2.pBits desc.Format
        (ULONG_of l.2.RowPitch) (ULONG_of l.2.SlicePitch) src_palette (some box) filter
        color_key tr2
      (r.1, r.2 ++ [Event.UnlockBox src_volume])

/-- The results of the `LockBox` calls made on `volume`, in call order. -/
def lockCalls (volume : Ptr) (tr : List Event) : List HRESULT :=
  tr.filterMap (fun e =>
    match e with
    | Event.LockBox v _ _ hr _ => if v = volume then some hr else none
    | _ => none)

/-- The number of `UnlockBox` calls made on `volume`. -/
def unlockCalls (volume : Ptr) (tr : List Event) : Nat :=
  tr.count (Event.UnlockBox volume)

/-- The results of the conversion calls, in call order. -/
def convertCalls (tr : List Event) : List HRESULT :=
  tr.filterMap (fun e =>
    match e with
    | Event.d3dx_load_pixels_from_pixels _ _ _ _ hr => some hr
    | _ => none)

/-- Format `D3DFMT_A8R8G8B8` (d3d9types.h). -/
def D3DFMT_A8R8G8B8 : Nat := 21
/-- Format `D3DFMT_VERTEXDATA` (d3d9types.h): not a pixel format. -/
def D3DFMT_VERTEXDATA : Nat := 100

/-- A sample format table: it knows `D3DFMT_A8R8G8B8` and answers every other
format with the descriptor of type `FORMAT_UNKNOWN`. -/
def sampleFormats (format : Nat) : pixel_format_desc :=
  if format = D3DFMT_A8R8G8B8 then
    { format := D3DFMT_A8R8G8B8, block_width := 1, block_height := 1,
      type := format_type.FORMAT_ARGB }
  else
    { format := D3DFMT_UNKNOWN, block_width := 1, block_height := 1,
      type := format_type.FORMAT_UNKNOWN }

/-- A sample collaborator.  Every volume is 8x8x4 texels of
`D3DFMT_A8R8G8B8`; locking fails on the volume at 0x7000 and succeeds on all
others; the conversion fails when asked for filter 0 and succeeds otherwise;
rectangles need no alignment. -/
def sampleExtern : Extern where
  GetDesc := fun _ _ => { Format := D3DFMT_A8R8G8B8, Width := 8, Height := 8, Depth := 4 }
  LockBox := fun _ volume _ _ =>
    if volume = 0x7000 then (D3DERR_INVALIDCALL, { RowPitch := 0, SlicePitch := 0, pBits := NULL })
    else (D3D_OK, { RowPitch := 32, SlicePitch := 256, pBits := 0x9000 })
  get_format_info := sampleFormats
  d3dx_pixels_init := fun data row_pitch slice_pitch palette _ left top right bottom front back =>
    (S_OK, set_d3dx_pixels data row_pitch slice_pitch palette (right - left) (bottom - top)
      (back - front) (SetRect left top right bottom))
  get_aligned_rect := fun left top right bottom _ _ _ => SetRect left top right bottom
  d3dx_load_pixels_from_pixels := fun _ _ _ _ _ filter _ =>
    if filter = 0 then D3DERR_INVALIDCALL else S_OK

end D3dx9

/-! # Theorems -/

/-! ## The context stack of documentmgr.c -/

namespace Msctf

theorem refDelta_append (obj : Ptr) (tr new : List Event) :
    refDelta obj (tr ++ new) = refDelta obj tr + refDelta obj new := by
  simp [refDelta]

theorem refDelta_releaseSlot (obj slot : Ptr) (tr : List Event) :
    refDelta obj (releaseSlot slot tr)
      = refDelta obj tr - (if slot ≠ NULL ∧ slot = obj then 1 else 0) := by
  unfold releaseSlot
  by_cases h : slot = NULL
  · simp [h]
  · by_cases h2 : slot = obj
    · subst h2
      simp [h, refDelta, refEffect]
      ring
    · simp [h, h2, refDelta, refEffect]

/-- C1: when both context slots are occupied, `DocumentMgr_Push` answers
`TF_E_STACKFULL` for every child argument (null or not, exposing the context
interface or not), keeps both slots as they were and makes no call at all, so
no reference count changes. -/
theorem DocumentMgr_Push_full (ext : Extern) (This : DocumentMgr) (pic : Ptr)
    (tr : List Event) (h0 : This.contextStack0 ≠ NULL) (h1 : This.contextStack1 ≠ NULL) :
    (DocumentMgr_Push ext This pic tr).1 = TF_E_STACKFULL
    ∧ (DocumentMgr_Push ext This pic tr).2.1.contextStack0 = This.contextStack0
    ∧ (DocumentMgr_Push ext This pic tr).2.1.contextStack1 = This.contextStack1
    ∧ (DocumentMgr_Push ext This pic tr).2.1 = This
    ∧ (DocumentMgr_Push ext This pic tr).2.2 = tr
    ∧ ∀ obj, refDelta obj (DocumentMgr_Push ext This pic tr).2.2 = refDelta obj tr := by
  have _ := h0
  simp [DocumentMgr_Push, h1]

theorem DocumentMgr_Push_full_witness :
    (DocumentMgr_Push sampleExtern ⟨1, 0x2000, 0x3000⟩ 0x4000 []).1 = TF_E_STACKFULL
    ∧ (DocumentMgr_Push sampleExtern ⟨1, 0x2000, 0x3000⟩ NULL []).2.2 = [] :=
  ⟨(DocumentMgr_Push_full sampleExtern ⟨1, 0x2000, 0x3000⟩ 0x4000 [] (by decide) (by decide)).1,
   (DocumentMgr_Push_full sampleExtern ⟨1, 0x2000, 0x3000⟩ NULL [] (by decide)
      (by decide)).2.2.2.2.1⟩

/-- C2 (what the code does at the failing input): a manager that holds
exactly one context, reached by one successful push on an empty manager, is
asked to pop with flags 0.  `DocumentMgr_Pop` answers `S_OK`, not `E_FAIL`,
releases that last context and leaves both slots empty. -/
theorem DocumentMgr_Pop_last_context :
    DocumentMgr_Push sampleExtern ⟨1, NULL, NULL⟩ 0x2000 []
      = (S_OK, ⟨1, 0x2000, NULL⟩, [Event.QueryInterface 0x2000 IID_ITfContext S_OK 0x2000])
    ∧ DocumentMgr_Pop ⟨1, 0x2000, NULL⟩ 0 [] = (S_OK, ⟨1, NULL, NULL⟩, [Event.Release 0x2000])
    ∧ (DocumentMgr_Pop ⟨1, 0x2000, NULL⟩ 0 []).1 ≠ E_FAIL
    ∧ (DocumentMgr_Pop ⟨1, 0x2000, NULL⟩ 0 []).2.1 ≠ ⟨1, 0x2000, NULL⟩
    ∧ refDelta 0x2000 (DocumentMgr_Pop ⟨1, 0x2000, NULL⟩ 0 []).2.2 = -1 := by
  decide

/-- C3: for every state, `DocumentMgr_Pop` with `TF_POPF_ALL` answers `S_OK`,
leaves both slots null (and the count of the manager untouched), and the calls
it makes are exactly one `Release` per occupied slot, first the top slot, then
the base slot: the reference count of any object drops by the number of slots
it occupied. -/
theorem DocumentMgr_Pop_all (This : DocumentMgr) (tr : List Event) :
    (DocumentMgr_Pop This TF_POPF_ALL tr).1 = S_OK
    ∧ (DocumentMgr_Pop This TF_POPF_ALL tr).2.1.contextStack0 = NULL
    ∧ (DocumentMgr_Pop This TF_POPF_ALL tr).2.1.contextStack1 = NULL
    ∧ (DocumentMgr_Pop This TF_POPF_ALL tr).2.1.refCount = This.refCount
    ∧ (DocumentMgr_Pop This TF_POPF_ALL tr).2.2
        = tr ++ (if This.contextStack0 ≠ NULL then [Event.Release This.contextStack0] else [])
             ++ (if This.contextStack1 ≠ NULL then [Event.Release This.contextStack1] else [])
    ∧ ∀ obj, refDelta obj (DocumentMgr_Pop This TF_POPF_ALL tr).2.2
        = refDelta obj tr
          - (if This.contextStack0 ≠ NULL ∧ This.contextStack0 = obj then 1 else 0)
          - (if This.contextStack1 ≠ NULL ∧ This.contextStack1 = obj then 1 else 0) := by
  refine ⟨by simp [DocumentMgr_Pop], by simp [DocumentMgr_Pop], by simp [DocumentMgr_Pop],
    by simp [DocumentMgr_Pop], ?_, ?_⟩
  · simp only [DocumentMgr_Pop, releaseSlot, if_true]
    by_cases h0 : This.contextStack0 = NULL <;> by_cases h1 : This.contextStack1 = NULL <;>
      simp [h0, h1]
  · intro obj
    simp only [DocumentMgr_Pop, if_true, refDelta_releaseSlot]

end Msctf

/-! ## Interface queries -/

/-- C4: for an interface id that is neither `IID_IUnknown` nor the own
interface of the object, both `DocumentMgr_QueryInterface` and
`transform_QueryInterface` answer `E_NOINTERFACE`, write a null output and
leave the object, its reference count included, as it was. -/
theorem QueryInterface_unsupported (iid : GUID) (hU : iid ≠ IID_IUnknown) :
    (iid ≠ IID_ITfDocumentMgr → ∀ (iface : Ptr) (This : Msctf.DocumentMgr),
        Msctf.DocumentMgr_QueryInterface iface This iid = (E_NOINTERFACE, NULL, This)
        ∧ (Msctf.DocumentMgr_QueryInterface iface This iid).2.2.refCount = This.refCount)
    ∧ (iid ≠ IID_IMFTransform → ∀ (iface : Ptr) (encoder : Winegstreamer.video_encoder),
        Winegstreamer.transform_QueryInterface iface encoder iid = (E_NOINTERFACE, NULL, encoder)
        ∧ (Winegstreamer.transform_QueryInterface iface encoder iid).2.2.refcount
            = encoder.refcount) := by
  constructor
  · intro hD iface This
    simp [Msctf.DocumentMgr_QueryInterface, IsEqualGUID, hU, hD]
  · intro hT iface encoder
    simp [Winegstreamer.transform_QueryInterface, IsEqualGUID, hU, hT]

theorem QueryInterface_unsupported_witness :
    Msctf.DocumentMgr_QueryInterface 0x1000 ⟨1, NULL, NULL⟩ IID_ITfContext
      = (E_NOINTERFACE, NULL, ⟨1, NULL, NULL⟩)
    ∧ Winegstreamer.transform_QueryInterface 0x1000 ⟨1, 0x5000⟩ IID_ITfContext
      = (E_NOINTERFACE, NULL, ⟨1, 0x5000⟩) :=
  ⟨((QueryInterface_unsupported IID_ITfContext (by decide)).1 (by decide) 0x1000
      ⟨1, NULL, NULL⟩).1,
   ((QueryInterface_unsupported IID_ITfContext (by decide)).2 (by decide) 0x1000
      ⟨1, 0x5000⟩).1⟩

/-! ## Reference counting and destruction -/

namespace Msctf

end Msctf

namespace Winegstreamer

end Winegstreamer

/-! ## The volume loader of volume.c -/

namespace D3dx9

/-- Every run of `D3DXLoadVolumeFromMemory` extends the log in one of four
ways: not at all; by the `GetDesc` call; by `GetDesc` and a failed `LockBox`,
whose error is returned; or by `GetDesc`, a successful `LockBox`, the
conversion, whose result is returned, and `UnlockBox`. -/
theorem D3DXLoadVolumeFromMemory_shape (ext : Extern) (dst_volume dst_palette : Ptr)
    (dst_box : Option D3DBOX) (src_memory : Ptr) (src_format src_row_pitch src_slice_pitch : Nat)
    (src_palette : Ptr) (src_box : Option D3DBOX) (filter color_key : Nat) (tr : List Event)
    (r : HRESULT × List Event)
    (h : D3DXLoadVolumeFromMemory ext dst_volume dst_palette dst_box src_memory src_format
      src_row_pitch src_slice_pitch src_palette src_box filter color_key tr = r) :
    (FAILED r.1 = true ∧ r.2 = tr)
    ∨ (FAILED r.1 = true ∧ r.2 = tr ++ [Event.GetDesc dst_volume])
    ∨ (∃ box lb, FAILED r.1 = true
        ∧ r.2 = tr ++ [Event.GetDesc dst_volume, Event.LockBox dst_volume box 0 r.1 lb])
    ∨ (∃ box hrL lb dp sp f ck, FAILED hrL = false
        ∧ r.2 = tr ++ [Event.GetDesc dst_volume, Event.LockBox dst_volume box 0 hrL lb,
            Event.d3dx_load_pixels_from_pixels dp sp f ck r.1, Event.UnlockBox dst_volume]) := by
  have fI : FAILED D3DERR_INVALIDCALL = true := by decide
  have fF : FAILED E_FAIL = true := by decide
  have fN : FAILED E_NOTIMPL = true := by decide
  unfold D3DXLoadVolumeFromMemory at h
  split at h
  · subst h; left; exact ⟨fI, rfl⟩
  · split at h
    · subst h; left; exact ⟨fI, rfl⟩
    · split at h
      · subst h; left; exact ⟨fF, rfl⟩
      · simp only [] at h
        split at h
        · subst h; left; exact ⟨fN, rfl⟩
        · split at h
          · subst h; right; left; exact ⟨fN, rfl⟩
          · split at h
            · subst h; right; left; exact ⟨fI, rfl⟩
            · split at h
              · rename_i h1
                subst h; right; left; exact ⟨h1, rfl⟩
              · split at h
                · rename_i h1
                  subst h; right; right; left
                  exact ⟨_, _, h1, List.append_assoc _ _ _⟩
                · rename_i h1
                  subst h; right; right; right
                  refine ⟨?box, ?hrL, ?lb, ?dp, ?sp, ?f, ?ck, ?hf, ?heq⟩
                  case heq =>
                    simp only [List.append_assoc]
                    exact rfl
                  case hf => simpa using h1

/-- A destination box that is empty or inverted on an axis, or reaches past the
declared extent of the volume, is rejected by the three range tests. -/
theorem resolve_dst_box_rejected (b : D3DBOX) (desc : D3DVOLUME_DESC)
    (hbad : b.Right ≤ b.Left ∨ b.Bottom ≤ b.Top ∨ b.Back ≤ b.Front
      ∨ desc.Width < b.Right ∨ desc.Height < b.Bottom ∨ desc.Depth < b.Back) :
    resolve_dst_box (some b) desc = none := by
  unfold resolve_dst_box
  simp only [ge_iff_le, gt_iff_lt]
  split_ifs with h1 h2 h3
  · rfl
  · rfl
  · rfl
  · exfalso
    push_neg at h1 h2 h3
    omega

/-- With a source format that is `D3DFMT_UNKNOWN` or unknown to the format
table, or a source box that is empty on an axis, `D3DXLoadVolumeFromMemory`
fails without making any call. -/
theorem D3DXLoadVolumeFromMemory_src_rejected (ext : Extern) (dst_volume dst_palette : Ptr)
    (dst_box : Option D3DBOX) (src_memory : Ptr) (src_format src_row_pitch src_slice_pitch : Nat)
    (src_palette : Ptr) (sb : D3DBOX) (filter color_key : Nat) (tr : List Event)
    (hbad : src_format = D3DFMT_UNKNOWN ∨ sb.Right ≤ sb.Left ∨ sb.Bottom ≤ sb.Top
      ∨ sb.Back ≤ sb.Front ∨ (ext.get_format_info src_format).type = format_type.FORMAT_UNKNOWN)
    (r : HRESULT × List Event)
    (h : D3DXLoadVolumeFromMemory ext dst_volume dst_palette dst_box src_memory src_format
      src_row_pitch src_slice_pitch src_palette (some sb) filter color_key tr = r) :
    (r.1 = D3DERR_INVALIDCALL ∨ r.1 = E_FAIL ∨ r.1 = E_NOTIMPL) ∧ r.2 = tr := by
  unfold D3DXLoadVolumeFromMemory at h
  split at h
  · subst h; exact ⟨Or.inl rfl, rfl⟩
  · simp only [] at h
    split at h
    · subst h; exact ⟨Or.inr (Or.inl rfl), rfl⟩
    · rename_i h2
      split at h
      · subst h; exact ⟨Or.inr (Or.inr rfl), rfl⟩
      · rename_i h3
        exfalso
        simp only [ge_iff_le] at h2
        push_neg at h2
        rcases hbad with hb | hb | hb | hb | hb
        · exact h2.1 hb
        · omega
        · omega
        · omega
        · exact h3 hb

/-- C6: with non-null destination volume, source memory and source box, a
source box that is empty or inverted on an axis makes
`D3DXLoadVolumeFromMemory` return `E_FAIL` with the call log unchanged: no
`LockBox` call (and no other call) is made on any volume. -/
theorem D3DXLoadVolumeFromMemory_empty_src_box (ext : Extern) (dst_volume dst_palette : Ptr)
    (dst_box : Option D3DBOX) (src_memory : Ptr) (src_format src_row_pitch src_slice_pitch : Nat)
    (src_palette : Ptr) (sb : D3DBOX) (filter color_key : Nat) (tr : List Event)
    (hv : dst_volume ≠ NULL) (hm : src_memory ≠ NULL)
    (hb : sb.Right ≤ sb.Left ∨ sb.Bottom ≤ sb.Top ∨ sb.Back ≤ sb.Front) :
    (D3DXLoadVolumeFromMemory ext dst_volume dst_palette dst_box src_memory src_format
      src_row_pitch src_slice_pitch src_palette (some sb) filter color_key tr).1 = E_FAIL
    ∧ (D3DXLoadVolumeFromMemory ext dst_volume dst_palette dst_box src_memory src_format
      src_row_pitch src_slice_pitch src_palette (some sb) filter color_key tr).2 = tr
    ∧ ∀ volume, lockCalls volume (D3DXLoadVolumeFromMemory ext dst_volume dst_palette dst_box
        src_memory src_format src_row_pitch src_slice_pitch src_palette (some sb) filter
        color_key tr).2 = lockCalls volume tr := by
  have hc : src_format = D3DFMT_UNKNOWN ∨ sb.Left ≥ sb.Right ∨ sb.Top ≥ sb.Bottom
      ∨ sb.Front ≥ sb.Back := by
    rcases hb with hb | hb | hb
    · exact Or.inr (Or.inl hb)
    · exact Or.inr (Or.inr (Or.inl hb))
    · exact Or.inr (Or.inr (Or.inr hb))
  have hn : ¬ (dst_volume = NULL ∨ src_memory = NULL) := by
    push_neg
    exact ⟨hv, hm⟩
  have key : D3DXLoadVolumeFromMemory ext dst_volume dst_palette dst_box src_memory src_format
      src_row_pitch src_slice_pitch src_palette (some sb) filter color_key tr = (E_FAIL, tr) := by
    unfold D3DXLoadVolumeFromMemory
    rw [if_neg hn]
    simp only []
    rw [if_pos hc]
  rw [key]
  exact ⟨rfl, rfl, fun _ => rfl⟩

theorem D3DXLoadVolumeFromMemory_empty_src_box_witness :
    (D3DXLoadVolumeFromMemory sampleExtern 0x6000 NULL none 0x9000 D3DFMT_A8R8G8B8 32 256 NULL
      (some ⟨5, 0, 5, 8, 0, 4⟩) 1 0 []).1 = E_FAIL
    ∧ (D3DXLoadVolumeFromMemory sampleExtern 0x6000 NULL none 0x9000 D3DFMT_A8R8G8B8 32 256 NULL
      (some ⟨5, 0, 5, 8, 0, 4⟩) 1 0 []).2 = [] :=
  ⟨(D3DXLoadVolumeFromMemory_empty_src_box sampleExtern 0x6000 NULL none 0x9000 D3DFMT_A8R8G8B8
      32 256 NULL ⟨5, 0, 5, 8, 0, 4⟩ 1 0 [] (by decide) (by decide) (by decide)).1,
   (D3DXLoadVolumeFromMemory_empty_src_box sampleExtern 0x6000 NULL none 0x9000 D3DFMT_A8R8G8B8
      32 256 NULL ⟨5, 0, 5, 8, 0, 4⟩ 1 0 [] (by decide) (by decide) (by decide)).2.1⟩

/-- With non-null arguments and a destination box that the range tests
reject, `D3DXLoadVolumeFromMemory` fails having made at most the `GetDesc`
call; if nothing earlier fails, the error is `D3DERR_INVALIDCALL`. -/
theorem D3DXLoadVolumeFromMemory_dst_rejected (ext : Extern) (dst_volume dst_palette : Ptr)
    (b : D3DBOX) (src_memory : Ptr) (src_format src_row_pitch src_slice_pitch : Nat)
    (src_palette : Ptr) (sb : D3DBOX) (filter color_key : Nat) (tr : List Event)
    (hres : resolve_dst_box (some b) (ext.GetDesc tr dst_volume) = none)
    (r : HRESULT × List Event)
    (h : D3DXLoadVolumeFromMemory ext dst_volume dst_palette (some b) src_memory src_format
      src_row_pitch src_slice_pitch src_palette (some sb) filter color_key tr = r) :
    (r.1 = D3DERR_INVALIDCALL ∨ r.1 = E_FAIL ∨ r.1 = E_NOTIMPL)
    ∧ (r.2 = tr ∨ r.2 = tr ++ [Event.GetDesc dst_volume])
    ∧ (dst_volume ≠ NULL → src_memory ≠ NULL → src_format ≠ D3DFMT_UNKNOWN →
        sb.Left < sb.Right → sb.Top < sb.Bottom → sb.Front < sb.Back →
        (ext.get_format_info src_format).type ≠ format_type.FORMAT_UNKNOWN →
        (ext.get_format_info (ext.GetDesc tr dst_volume).Format).type
          ≠ format_type.FORMAT_UNKNOWN →
        r = (D3DERR_INVALIDCALL, tr ++ [Event.GetDesc dst_volume])) := by
  unfold D3DXLoadVolumeFromMemory at h
  split at h
  · rename_i h1
    subst h
    refine ⟨Or.inl rfl, Or.inl rfl, ?_⟩
    intro hv hm
    rcases h1 with h1 | h1
    · exact absurd h1 hv
    · exact absurd h1 hm
  · simp only [] at h
    split at h
    · rename_i h2
      subst h
      refine ⟨Or.inr (Or.inl rfl), Or.inl rfl, ?_⟩
      intro _ _ hf hx hy hz
      exfalso
      simp only [ge_iff_le] at h2
      rcases h2 with h2 | h2 | h2 | h2
      · exact hf h2
      · omega
      · omega
      · omega
    · split at h
      · rename_i h3
        subst h
        refine ⟨Or.inr (Or.inr rfl), Or.inl rfl, ?_⟩
        intro _ _ _ _ _ _ hs
        exact absurd h3 hs
      · split at h
        · rename_i h4
          subst h
          refine ⟨Or.inr (Or.inr rfl), Or.inr rfl, ?_⟩
          intro _ _ _ _ _ _ _ hd
          exact absurd h4 hd
        · rw [hres] at h
          simp only [] at h
          subst h
          exact ⟨Or.inl rfl, Or.inr rfl, fun _ _ _ _ _ _ _ _ => rfl⟩

theorem lockCalls_append_GetDesc (volume v : Ptr) (tr : List Event) :
    lockCalls volume (tr ++ [Event.GetDesc v]) = lockCalls volume tr := by
  simp [lockCalls]

/-- First exit of `D3DXLoadVolumeFromMemory`: a null destination volume or
null source memory. -/
theorem D3DXLoadVolumeFromMemory_exit_null (ext : Extern) (dst_volume dst_palette : Ptr)
    (dst_box : Option D3DBOX) (src_memory : Ptr) (src_format src_row_pitch src_slice_pitch : Nat)
    (src_palette : Ptr) (src_box : Option D3DBOX) (filter color_key : Nat) (tr : List Event)
    (h1 : dst_volume = NULL ∨ src_memory = NULL) :
    D3DXLoadVolumeFromMemory ext dst_volume dst_palette dst_box src_memory src_format
      src_row_pitch src_slice_pitch src_palette src_box filter color_key tr
      = (D3DERR_INVALIDCALL, tr) := by
  unfold D3DXLoadVolumeFromMemory
  rw [if_pos h1]

/-- Second exit: source format `D3DFMT_UNKNOWN` or an empty source box. -/
theorem D3DXLoadVolumeFromMemory_exit_src_box (ext : Extern) (dst_volume dst_palette : Ptr)
    (dst_box : Option D3DBOX) (src_memory : Ptr) (src_format src_row_pitch src_slice_pitch : Nat)
    (src_palette : Ptr) (sb : D3DBOX) (filter color_key : Nat) (tr : List Event)
    (h1 : ¬ (dst_volume = NULL ∨ src_memory = NULL))
    (h2 : src_format = D3DFMT_UNKNOWN ∨ sb.Left ≥ sb.Right ∨ sb.Top ≥ sb.Bottom
      ∨ sb.Front ≥ sb.Back) :
    D3DXLoadVolumeFromMemory ext dst_volume dst_palette dst_box src_memory src_format
      src_row_pitch src_slice_pitch src_palette (some sb) filter color_key tr
      = (E_FAIL, tr) := by
  unfold D3DXLoadVolumeFromMemory
  rw [if_neg h1]
  simp only []
  rw [if_pos h2]

/-- Third exit: a source format unknown to the format table. -/
theorem D3DXLoadVolumeFromMemory_exit_src_format (ext : Extern) (dst_volume dst_palette : Ptr)
    (dst_box : Option D3DBOX) (src_memory : Ptr) (src_format src_row_pitch src_slice_pitch : Nat)
    (src_palette : Ptr) (sb : D3DBOX) (filter color_key : Nat) (tr : List Event)
    (h1 : ¬ (dst_volume = NULL ∨ src_memory = NULL))
    (h2 : ¬ (src_format = D3DFMT_UNKNOWN ∨ sb.Left ≥ sb.Right ∨ sb.Top ≥ sb.Bottom
      ∨ sb.Front ≥ sb.Back))
    (h3 : (ext.get_format_info src_format).type = format_type.FORMAT_UNKNOWN) :
    D3DXLoadVolumeFromMemory ext dst_volume dst_palette dst_box src_memory src_format
      src_row_pitch src_slice_pitch src_palette (some sb) filter color_key tr
      = (E_NOTIMPL, tr) := by
  unfold D3DXLoadVolumeFromMemory
  rw [if_neg h1]
  simp only []
  rw [if_neg h2, if_pos h3]

/-- Fourth exit: a destination format unknown to the format table. -/
theorem D3DXLoadVolumeFromMemory_exit_dst_format (ext : Extern) (dst_volume dst_palette : Ptr)
    (dst_box : Option D3DBOX) (src_memory : Ptr) (src_format src_row_pitch src_slice_pitch : Nat)
    (src_palette : Ptr) (sb : D3DBOX) (filter color_key : Nat) (tr : List Event)
    (h1 : ¬ (dst_volume = NULL ∨ src_memory = NULL))
    (h2 : ¬ (src_format = D3DFMT_UNKNOWN ∨ sb.Left ≥ sb.Right ∨ sb.Top ≥ sb.Bottom
      ∨ sb.Front ≥ sb.Back))
    (h3 : ¬ (ext.get_format_info src_format).type = format_type.FORMAT_UNKNOWN)
    (h4 : (ext.get_format_info (ext.GetDesc tr dst_volume).Format).type
      = format_type.FORMAT_UNKNOWN) :
    D3DXLoadVolumeFromMemory ext dst_volume dst_palette dst_box src_memory src_format
      src_row_pitch src_slice_pitch src_palette (some sb) filter color_key tr
      = (E_NOTIMPL, tr ++ [Event.GetDesc dst_volume]) := by
  unfold D3DXLoadVolumeFromMemory
  rw [if_neg h1]
  simp only []
  rw [if_neg h2, if_neg h3, if_pos h4]

/-- Fifth exit: a destination box rejected by the range tests. -/
theorem D3DXLoadVolumeFromMemory_exit_dst_box (ext : Extern) (dst_volume dst_palette : Ptr)
    (dst_box : Option D3DBOX) (src_memory : Ptr) (src_format src_row_pitch src_slice_pitch : Nat)
    (src_palette : Ptr) (sb : D3DBOX) (filter color_key : Nat) (tr : List Event)
    (h1 : ¬ (dst_volume = NULL ∨ src_memory = NULL))
    (h2 : ¬ (src_format = D3DFMT_UNKNOWN ∨ sb.Left ≥ sb.Right ∨ sb.Top ≥ sb.Bottom
      ∨ sb.Front ≥ sb.Back))
    (h3 : ¬ (ext.get_format_info src_format).type = format_type.FORMAT_UNKNOWN)
    (h4 : ¬ (ext.get_format_info (ext.GetDesc tr dst_volume).Format).type
      = format_type.FORMAT_UNKNOWN)
    (h5 : resolve_dst_box dst_box (ext.GetDesc tr dst_volume) = none) :
    D3DXLoadVolumeFromMemory ext dst_volume dst_palette dst_box src_memory src_format
      src_row_pitch src_slice_pitch src_palette (some sb) filter color_key tr
      = (D3DERR_INVALIDCALL, tr ++ [Event.GetDesc dst_volume]) := by
  unfold D3DXLoadVolumeFromMemory
  rw [if_neg h1]
  simp only []
  rw [if_neg h2, if_neg h3, if_neg h4, h5]

/-- Sixth exit: `d3dx_pixels_init` fails. -/
theorem D3DXLoadVolumeFromMemory_exit_init (ext : Extern) (dst_volume dst_palette : Ptr)
    (dst_box : Option D3DBOX) (src_memory : Ptr) (src_format src_row_pitch src_slice_pitch : Nat)
    (src_palette : Ptr) (sb : D3DBOX) (filter color_key : Nat) (tr : List Event) (db : D3DBOX)
    (h1 : ¬ (dst_volume = NULL ∨ src_memory = NULL))
    (h2 : ¬ (src_format = D3DFMT_UNKNOWN ∨ sb.Left ≥ sb.Right ∨ sb.Top ≥ sb.Bottom
      ∨ sb.Front ≥ sb.Back))
    (h3 : ¬ (ext.get_format_info src_format).type = format_type.FORMAT_UNKNOWN)
    (h4 : ¬ (ext.get_format_info (ext.GetDesc tr dst_volume).Format).type
      = format_type.FORMAT_UNKNOWN)
    (h5 : resolve_dst_box dst_box (ext.GetDesc tr dst_volume) = some db)
    (h6 : FAILED (ext.d3dx_pixels_init src_memory src_row_pitch src_slice_pitch src_palette
      src_format sb.Left sb.Top sb.Right sb.Bottom sb.Front sb.Back).1 = true) :
    D3DXLoadVolumeFromMemory ext dst_volume dst_palette dst_box src_memory src_format
      src_row_pitch src_slice_pitch src_palette (some sb) filter color_key tr
      = ((ext.d3dx_pixels_init src_memory src_row_pitch src_slice_pitch src_palette
          src_format sb.Left sb.Top sb.Right sb.Bottom sb.Front sb.Back).1,
          tr ++ [Event.GetDesc dst_volume]) := by
  unfold D3DXLoadVolumeFromMemory
  rw [if_neg h1]
  simp only []
  rw [if_neg h2, if_neg h3, if_neg h4, h5]
  simp only []
  rw [if_pos h6]

/-- C7 (as stated, refuted): a call with non-null arguments, a valid source
box and an inverted destination box (Left 4, Right 2), but a source format the
format table does not know, is answered `E_NOTIMPL`, not
`D3DERR_INVALIDCALL`: the format tests come before the destination range
tests.  With source format `D3DFMT_UNKNOWN` the answer is `E_FAIL`. -/
theorem D3DXLoadVolumeFromMemory_bad_dst_box_other_error :
    D3DXLoadVolumeFromMemory sampleExtern 0x6000 NULL (some ⟨4, 0, 2, 8, 0, 4⟩) 0x9000
      D3DFMT_VERTEXDATA 32 256 NULL (some ⟨0, 0, 8, 8, 0, 4⟩) 1 0 [] = (E_NOTIMPL, [])
    ∧ D3DXLoadVolumeFromMemory sampleExtern 0x6000 NULL (some ⟨4, 0, 2, 8, 0, 4⟩) 0x9000
      D3DFMT_UNKNOWN 32 256 NULL (some ⟨0, 0, 8, 8, 0, 4⟩) 1 0 [] = (E_FAIL, [])
    ∧ E_NOTIMPL ≠ D3DERR_INVALIDCALL ∧ E_FAIL ≠ D3DERR_INVALIDCALL := by
  decide

/-- C7 (amended): take a call to `D3DXLoadVolumeFromMemory` with non-null
arguments and a destination box that is empty or inverted on an axis or
reaches past the declared width, height or depth of the destination volume.
The call fails and no `LockBox` call is made on any volume.  Which error is
returned is decided by the tests that come first: `E_FAIL` when the source
format is `D3DFMT_UNKNOWN` or the source box is empty or inverted on an axis;
otherwise `E_NOTIMPL` when the source format, or else the destination format,
is unknown to the format table; and `D3DERR_INVALIDCALL` in all remaining
cases, that is, when the source format and box are valid and both formats are
known. -/
theorem D3DXLoadVolumeFromMemory_bad_dst_box (ext : Extern) (dst_volume dst_palette : Ptr)
    (b : D3DBOX) (src_memory : Ptr) (src_format src_row_pitch src_slice_pitch : Nat)
    (src_palette : Ptr) (sb : D3DBOX) (filter color_key : Nat) (tr : List Event)
    (hv : dst_volume ≠ NULL) (hm : src_memory ≠ NULL)
    (hbad : b.Right ≤ b.Left ∨ b.Bottom ≤ b.Top ∨ b.Back ≤ b.Front
      ∨ (ext.GetDesc tr dst_volume).Width < b.Right
      ∨ (ext.GetDesc tr dst_volume).Height < b.Bottom
      ∨ (ext.GetDesc tr dst_volume).Depth < b.Back) :
    FAILED (D3DXLoadVolumeFromMemory ext dst_volume dst_palette (some b) src_memory src_format
        src_row_pitch src_slice_pitch src_palette (some sb) filter color_key tr).1 = true
    ∧ (∀ volume, lockCalls volume (D3DXLoadVolumeFromMemory ext dst_volume dst_palette (some b) src_memory src_format
        src_row_pitch src_slice_pitch src_palette (some sb) filter color_key tr).2
        = lockCalls volume tr)
    ∧ ((D3DXLoadVolumeFromMemory ext dst_volume dst_palette (some b) src_memory src_format
        src_row_pitch src_slice_pitch src_palette (some sb) filter color_key tr).1
          = D3DERR_INVALIDCALL
      ∨ (D3DXLoadVolumeFromMemory ext dst_volume dst_palette (some b) src_memory src_format
        src_row_pitch src_slice_pitch src_palette (some sb) filter color_key tr).1 = E_FAIL
      ∨ (D3DXLoadVolumeFromMemory ext dst_volume dst_palette (some b) src_memory src_format
        src_row_pitch src_slice_pitch src_palette (some sb) filter color_key tr).1 = E_NOTIMPL)
    ∧ (src_format ≠ D3DFMT_UNKNOWN →
        sb.Left < sb.Right → sb.Top < sb.Bottom → sb.Front < sb.Back →
        (ext.get_format_info src_format).type ≠ format_type.FORMAT_UNKNOWN →
        (ext.get_format_info (ext.GetDesc tr dst_volume).Format).type
          ≠ format_type.FORMAT_UNKNOWN →
        (D3DXLoadVolumeFromMemory ext dst_volume dst_palette (some b) src_memory src_format
        src_row_pitch src_slice_pitch src_palette (some sb) filter color_key tr).1
            = D3DERR_INVALIDCALL)
    ∧ (src_format = D3DFMT_UNKNOWN ∨ sb.Right ≤ sb.Left ∨ sb.Bottom ≤ sb.Top
        ∨ sb.Back ≤ sb.Front →
        D3DXLoadVolumeFromMemory ext dst_volume dst_palette (some b) src_memory src_format
            src_row_pitch src_slice_pitch src_palette (some sb) filter color_key tr
          = (E_FAIL, tr))
    ∧ (src_format ≠ D3DFMT_UNKNOWN →
        sb.Left < sb.Right → sb.Top < sb.Bottom → sb.Front < sb.Back →
        ((ext.get_format_info src_format).type = format_type.FORMAT_UNKNOWN →
          D3DXLoadVolumeFromMemory ext dst_volume dst_palette (some b) src_memory src_format
            src_row_pitch src_slice_pitch src_palette (some sb) filter color_key tr
            = (E_NOTIMPL, tr))
        ∧ ((ext.get_format_info src_format).type ≠ format_type.FORMAT_UNKNOWN →
          (ext.get_format_info (ext.GetDesc tr dst_volume).Format).type
            = format_type.FORMAT_UNKNOWN →
          D3DXLoadVolumeFromMemory ext dst_volume dst_palette (some b) src_memory src_format
            src_row_pitch src_slice_pitch src_palette (some sb) filter color_key tr
            = (E_NOTIMPL, tr ++ [Event.GetDesc dst_volume]))
        ∧ ((ext.get_format_info src_format).type ≠ format_type.FORMAT_UNKNOWN →
          (ext.get_format_info (ext.GetDesc tr dst_volume).Format).type
            ≠ format_type.FORMAT_UNKNOWN →
          D3DXLoadVolumeFromMemory ext dst_volume dst_palette (some b) src_memory src_format
            src_row_pitch src_slice_pitch src_palette (some sb) filter color_key tr
            = (D3DERR_INVALIDCALL, tr ++ [Event.GetDesc dst_volume]))) := by
  have h1 : ¬ (dst_volume = NULL ∨ src_memory = NULL) := by
    push_neg
    exact ⟨hv, hm⟩
  have hres := resolve_dst_box_rejected b _ hbad
  have fI : FAILED D3DERR_INVALIDCALL = true := by decide
  have fF : FAILED E_FAIL = true := by decide
  have fN : FAILED E_NOTIMPL = true := by decide
  by_cases h2 : src_format = D3DFMT_UNKNOWN ∨ sb.Left ≥ sb.Right ∨ sb.Top ≥ sb.Bottom
      ∨ sb.Front ≥ sb.Back
  · have key := D3DXLoadVolumeFromMemory_exit_src_box ext dst_volume dst_palette (some b)
      src_memory src_format src_row_pitch src_slice_pitch src_palette sb filter color_key tr
      h1 h2
    rw [key]
    refine ⟨fF, fun _ => rfl, Or.inr (Or.inl rfl), ?_, fun _ => rfl, ?_⟩
    · intro a1 a2 a3 a4
      exfalso
      rcases h2 with h | h | h | h
      · exact a1 h
      · omega
      · omega
      · omega
    · intro a1 a2 a3 a4
      exfalso
      rcases h2 with h | h | h | h
      · exact a1 h
      · omega
      · omega
      · omega
  · have h2' : ¬ (src_format = D3DFMT_UNKNOWN ∨ sb.Right ≤ sb.Left ∨ sb.Bottom ≤ sb.Top
        ∨ sb.Back ≤ sb.Front) := h2
    by_cases h3 : (ext.get_format_info src_format).type = format_type.FORMAT_UNKNOWN
    · have key := D3DXLoadVolumeFromMemory_exit_src_format ext dst_volume dst_palette (some b)
        src_memory src_format src_row_pitch src_slice_pitch src_palette sb filter color_key tr
        h1 h2 h3
      rw [key]
      refine ⟨fN, fun _ => rfl, Or.inr (Or.inr rfl), ?_, fun h => absurd h h2', ?_⟩
      · intro _ _ _ _ a5
        exact absurd h3 a5
      · intro _ _ _ _
        exact ⟨fun _ => rfl, fun a5 => absurd h3 a5, fun a5 => absurd h3 a5⟩
    · by_cases h4 : (ext.get_format_info (ext.GetDesc tr dst_volume).Format).type
          = format_type.FORMAT_UNKNOWN
      · have key := D3DXLoadVolumeFromMemory_exit_dst_format ext dst_volume dst_palette
          (some b) src_memory src_format src_row_pitch src_slice_pitch src_palette sb filter
          color_key tr h1 h2 h3 h4
        rw [key]
        refine ⟨fN, fun v => lockCalls_append_GetDesc v dst_volume tr, Or.inr (Or.inr rfl), ?_,
          fun h => absurd h h2', ?_⟩
        · intro _ _ _ _ _ a6
          exact absurd h4 a6
        · intro _ _ _ _
          exact ⟨fun a5 => absurd a5 h3, fun _ _ => rfl, fun _ a6 => absurd h4 a6⟩
      · have key := D3DXLoadVolumeFromMemory_exit_dst_box ext dst_volume dst_palette
          (some b) src_memory src_format src_row_pitch src_slice_pitch src_palette sb filter
          color_key tr h1 h2 h3 h4 hres
        rw [key]
        refine ⟨fI, fun v => lockCalls_append_GetDesc v dst_volume tr, Or.inl rfl, ?_,
          fun h => absurd h h2', ?_⟩
        · intro _ _ _ _ _ _
          rfl
        · intro _ _ _ _
          exact ⟨fun a5 => absurd a5 h3, fun _ a6 => absurd a6 h4, fun _ _ => rfl⟩

theorem D3DXLoadVolumeFromMemory_bad_dst_box_witness :
    (D3DXLoadVolumeFromMemory sampleExtern 0x6000 NULL (some ⟨4, 0, 2, 8, 0, 4⟩) 0x9000
      D3DFMT_A8R8G8B8 32 256 NULL (some ⟨0, 0, 8, 8, 0, 4⟩) 1 0 []).1 = D3DERR_INVALIDCALL :=
  (D3DXLoadVolumeFromMemory_bad_dst_box sampleExtern 0x6000 NULL ⟨4, 0, 2, 8, 0, 4⟩ 0x9000
    D3DFMT_A8R8G8B8 32 256 NULL ⟨0, 0, 8, 8, 0, 4⟩ 1 0 [] (by decide) (by decide)
    (by decide)).2.2.2.1 (by decide) (by decide) (by decide) (by decide) (by decide)
    (by decide)

/-- C8: in every run of `D3DXLoadVolumeFromMemory` the calls it adds to the
log fall under one of three cases.  Either no `LockBox` call is made on the
destination, and then no `UnlockBox` either.  Or one `LockBox` call is made
and fails: its error is the returned result, and neither the conversion nor
`UnlockBox` is called.  Or one `LockBox` call is made and succeeds: the
conversion is called once, its result, failed or not, is the returned result,
and `UnlockBox` is called exactly once, as the last call. -/
theorem D3DXLoadVolumeFromMemory_lock_scoped (ext : Extern) (dst_volume dst_palette : Ptr)
    (dst_box : Option D3DBOX) (src_memory : Ptr) (src_format src_row_pitch src_slice_pitch : Nat)
    (src_palette : Ptr) (src_box : Option D3DBOX) (filter color_key : Nat) (tr : List Event) :
    ∃ new, (D3DXLoadVolumeFromMemory ext dst_volume dst_palette dst_box src_memory src_format
        src_row_pitch src_slice_pitch src_palette src_box filter color_key tr).2 = tr ++ new
      ∧ ((lockCalls dst_volume new = [] ∧ unlockCalls dst_volume new = 0 ∧ convertCalls new = [])
        ∨ (∃ hr, lockCalls dst_volume new = [hr] ∧ FAILED hr = true
            ∧ (D3DXLoadVolumeFromMemory ext dst_volume dst_palette dst_box src_memory src_format
                src_row_pitch src_slice_pitch src_palette src_box filter color_key tr).1 = hr
            ∧ unlockCalls dst_volume new = 0 ∧ convertCalls new = [])
        ∨ (∃ hr, lockCalls dst_volume new = [hr] ∧ FAILED hr = false
            ∧ convertCalls new = [(D3DXLoadVolumeFromMemory ext dst_volume dst_palette dst_box
                src_memory src_format src_row_pitch src_slice_pitch src_palette src_box filter
                color_key tr).1]
            ∧ unlockCalls dst_volume new = 1
            ∧ new.getLast? = some (Event.UnlockBox dst_volume))) := by
  obtain ⟨r, hr⟩ : ∃ r, D3DXLoadVolumeFromMemory ext dst_volume dst_palette dst_box src_memory
      src_format src_row_pitch src_slice_pitch src_palette src_box filter color_key tr = r :=
    ⟨_, rfl⟩
  rw [hr]
  rcases D3DXLoadVolumeFromMemory_shape ext dst_volume dst_palette dst_box src_memory
    src_format src_row_pitch src_slice_pitch src_palette src_box filter color_key tr r hr with
    ⟨_, h⟩ | ⟨_, h⟩ | ⟨box, lb, hf, h⟩ | ⟨box, hrL, lb, dp, sp, f, ck, hf, h⟩
  · exact ⟨[], by simp [h], Or.inl ⟨by simp [lockCalls], by simp [unlockCalls],
      by simp [convertCalls]⟩⟩
  · exact ⟨_, h, Or.inl ⟨by simp [lockCalls], by simp [unlockCalls], by simp [convertCalls]⟩⟩
  · exact ⟨_, h, Or.inr (Or.inl ⟨r.1, by simp [lockCalls], hf, rfl, by simp [unlockCalls],
      by simp [convertCalls]⟩)⟩
  · exact ⟨_, h, Or.inr (Or.inr ⟨hrL, by simp [lockCalls], hf, by simp [convertCalls],
      by simp [unlockCalls], by simp⟩)⟩

/-- Both locking cases of `D3DXLoadVolumeFromMemory` occur: on a volume whose
lock fails the lock error comes back after `GetDesc` and `LockBox` alone; on
a lockable volume a failing conversion (filter 0) is still followed by
`UnlockBox`, and its error is the result. -/
theorem D3DXLoadVolumeFromMemory_lock_examples :
    D3DXLoadVolumeFromMemory sampleExtern 0x7000 NULL none 0x9000 D3DFMT_A8R8G8B8 32 256 NULL
        (some ⟨0, 0, 8, 8, 0, 4⟩) 1 0 []
      = (D3DERR_INVALIDCALL, [Event.GetDesc 0x7000,
          Event.LockBox 0x7000 (some ⟨0, 0, 8, 8, 0, 4⟩) 0 D3DERR_INVALIDCALL ⟨0, 0, NULL⟩])
    ∧ (D3DXLoadVolumeFromMemory sampleExtern 0x6000 NULL none 0x9000 D3DFMT_A8R8G8B8 32 256 NULL
        (some ⟨0, 0, 8, 8, 0, 4⟩) 0 0 []).1 = D3DERR_INVALIDCALL
    ∧ unlockCalls 0x6000 (D3DXLoadVolumeFromMemory sampleExtern 0x6000 NULL none 0x9000
        D3DFMT_A8R8G8B8 32 256 NULL (some ⟨0, 0, 8, 8, 0, 4⟩) 0 0 []).2 = 1
    ∧ lockCalls 0x6000 (D3DXLoadVolumeFromMemory sampleExtern 0x6000 NULL none 0x9000
        D3DFMT_A8R8G8B8 32 256 NULL (some ⟨0, 0, 8, 8, 0, 4⟩) 0 0 []).2 = [D3D_OK]
    ∧ (D3DXLoadVolumeFromMemory sampleExtern 0x6000 NULL none 0x9000 D3DFMT_A8R8G8B8 32 256 NULL
        (some ⟨0, 0, 8, 8, 0, 4⟩) 1 0 []).1 = S_OK := by
  decide

/-- Once both volumes are non-null and the source lock has succeeded,
`D3DXLoadVolumeFromVolume` is `D3DXLoadVolumeFromMemory` on the locked bits and
the source box in use, followed by the `UnlockBox` of the source. -/
theorem D3DXLoadVolumeFromVolume_locked (ext : Extern)
    (dst_volume dst_palette : Ptr) (dst_box : Option D3DBOX) (src_volume src_palette : Ptr)
    (src_box : Option D3DBOX) (filter color_key : Nat) (tr : List Event)
    (hn : ¬ (dst_volume = NULL ∨ src_volume = NULL))
    (hf : ¬ FAILED (ext.LockBox (tr ++ [Event.GetDesc src_volume]) src_volume none
        D3DLOCK_READONLY).1 = true) :
    D3DXLoadVolumeFromVolume ext dst_volume dst_palette dst_box src_volume src_palette src_box
        filter color_key tr
      = ((D3DXLoadVolumeFromMemory ext dst_volume dst_palette dst_box
            (ext.LockBox (tr ++ [Event.GetDesc src_volume]) src_volume none
              D3DLOCK_READONLY).2.pBits
            (ext.GetDesc tr src_volume).Format
            (ULONG_of (ext.LockBox (tr ++ [Event.GetDesc src_volume]) src_volume none
              D3DLOCK_READONLY).2.RowPitch)
            (ULONG_of (ext.LockBox (tr ++ [Event.GetDesc src_volume]) src_volume none
              D3DLOCK_READONLY).2.SlicePitch)
            src_palette
            (some (src_box.getD ⟨0, 0, (ext.GetDesc tr src_volume).Width,
              (ext.GetDesc tr src_volume).Height, 0, (ext.GetDesc tr src_volume).Depth⟩))
            filter color_key
            (tr ++ [Event.GetDesc src_volume] ++ [Event.LockBox src_volume none D3DLOCK_READONLY
              (ext.LockBox (tr ++ [Event.GetDesc src_volume]) src_volume none D3DLOCK_READONLY).1
              (ext.LockBox (tr ++ [Event.GetDesc src_volume]) src_volume none
                D3DLOCK_READONLY).2])).1,
          (D3DXLoadVolumeFromMemory ext dst_volume dst_palette dst_box
            (ext.LockBox (tr ++ [Event.GetDesc src_volume]) src_volume none
              D3DLOCK_READONLY).2.pBits
            (ext.GetDesc tr src_volume).Format
            (ULONG_of (ext.LockBox (tr ++ [Event.GetDesc src_volume]) src_volume none
              D3DLOCK_READONLY).2.RowPitch)
            (ULONG_of (ext.LockBox (tr ++ [Event.GetDesc src_volume]) src_volume none
              D3DLOCK_READONLY).2.SlicePitch)
            src_palette
            (some (src_box.getD ⟨0, 0, (ext.GetDesc tr src_volume).Width,
              (ext.GetDesc tr src_volume).Height, 0, (ext.GetDesc tr src_volume).Depth⟩))
            filter color_key
            (tr ++ [Event.GetDesc src_volume] ++ [Event.LockBox src_volume none D3DLOCK_READONLY
              (ext.LockBox (tr ++ [Event.GetDesc src_volume]) src_volume none D3DLOCK_READONLY).1
              (ext.LockBox (tr ++ [Event.GetDesc src_volume]) src_volume none
                D3DLOCK_READONLY).2])).2 ++ [Event.UnlockBox src_volume]) := by
  unfold D3DXLoadVolumeFromVolume
  rw [if_neg hn]
  simp only []
  rw [if_neg hf]
  cases src_box <;> rfl

/-- C9 (as stated, refuted): `D3DXLoadVolumeFromVolume` is called with
non-null volumes and a source box with Right = Left.  The call fails with the
validation error `E_FAIL`, but the log shows a `LockBox` call on the source
volume (followed by its `UnlockBox`): the source is locked before the request
is validated. -/
theorem D3DXLoadVolumeFromVolume_locks_before_validation :
    D3DXLoadVolumeFromVolume sampleExtern 0x6000 NULL none 0x8000 NULL
        (some ⟨5, 0, 5, 8, 0, 4⟩) 1 0 []
      = (E_FAIL, [Event.GetDesc 0x8000,
          Event.LockBox 0x8000 none D3DLOCK_READONLY D3D_OK ⟨32, 256, 0x9000⟩,
          Event.UnlockBox 0x8000])
    ∧ lockCalls 0x8000 (D3DXLoadVolumeFromVolume sampleExtern 0x6000 NULL none 0x8000 NULL
        (some ⟨5, 0, 5, 8, 0, 4⟩) 1 0 []).2 = [D3D_OK]
    ∧ lockCalls 0x8000 (D3DXLoadVolumeFromVolume sampleExtern 0x6000 NULL none 0x8000 NULL
        (some ⟨5, 0, 5, 8, 0, 4⟩) 1 0 []).2 ≠ [] := by
  decide

/-- A destination box that is absent, or present and within the range tests,
is accepted. -/
theorem resolve_dst_box_accepted (dst_box : Option D3DBOX) (desc : D3DVOLUME_DESC)
    (h : ¬ ∃ b, dst_box = some b ∧ (b.Right ≤ b.Left ∨ b.Bottom ≤ b.Top ∨ b.Back ≤ b.Front
      ∨ desc.Width < b.Right ∨ desc.Height < b.Bottom ∨ desc.Depth < b.Back)) :
    ∃ db, resolve_dst_box dst_box desc = some db := by
  cases dst_box with
  | none => exact ⟨_, rfl⟩
  | some b =>
    have hb : ¬ (b.Right ≤ b.Left ∨ b.Bottom ≤ b.Top ∨ b.Back ≤ b.Front
        ∨ desc.Width < b.Right ∨ desc.Height < b.Bottom ∨ desc.Depth < b.Back) :=
      fun hb => h ⟨b, rfl, hb⟩
    refine ⟨b, ?_⟩
    unfold resolve_dst_box
    simp only [ge_iff_le, gt_iff_lt]
    split_ifs with h1 h2 h3
    · exfalso; omega
    · exfalso; omega
    · exfalso; omega
    · rfl

/-- C9 (amended): with non-null volumes `D3DXLoadVolumeFromVolume` first
reads the source description and locks the whole source volume read-only;
these two calls are made before anything is validated.  If that lock fails,
its error is returned and nothing else is called.  If it succeeds and the
request then fails one of the tests `D3DXLoadVolumeFromMemory` makes before it
locks the destination, the error of the first failing test is returned:
`D3DERR_INVALIDCALL` for a null locked pointer, `E_FAIL` for a source format
`D3DFMT_UNKNOWN` or a source box empty or inverted on an axis, `E_NOTIMPL` for
a source or destination format unknown to the format table,
`D3DERR_INVALIDCALL` for a destination box that is empty, inverted or reaches
past the destination volume, and the error of `d3dx_pixels_init` when that
fails.  In each of these cases the only further calls are `GetDesc` on the
destination (when the source-side tests passed) and one `UnlockBox` on the
source: the one lock call on the source is the only lock call made, so the
destination receives none when it is another volume than the source. -/
theorem D3DXLoadVolumeFromVolume_validation_failure (ext : Extern)
    (dst_volume dst_palette : Ptr) (dst_box : Option D3DBOX) (src_volume src_palette : Ptr)
    (src_box : Option D3DBOX) (filter color_key : Nat) (tr : List Event)
    (sdesc ddesc : D3DVOLUME_DESC) (l : HRESULT × D3DLOCKED_BOX) (sb : D3DBOX)
    (init : HRESULT × d3dx_pixels)
    (hd : dst_volume ≠ NULL) (hs : src_volume ≠ NULL)
    (hsd : ext.GetDesc tr src_volume = sdesc)
    (hl : ext.LockBox (tr ++ [Event.GetDesc src_volume]) src_volume none D3DLOCK_READONLY = l)
    (hsb : src_box.getD ⟨0, 0, sdesc.Width, sdesc.Height, 0, sdesc.Depth⟩ = sb)
    (hdd : ext.GetDesc (tr ++ [Event.GetDesc src_volume, Event.LockBox src_volume none D3DLOCK_READONLY l.1 l.2]) dst_volume = ddesc)
    (hin : ext.d3dx_pixels_init l.2.pBits (ULONG_of l.2.RowPitch) (ULONG_of l.2.SlicePitch)
      src_palette sdesc.Format sb.Left sb.Top sb.Right sb.Bottom sb.Front sb.Back = init) :
    (FAILED l.1 = true →
      D3DXLoadVolumeFromVolume ext dst_volume dst_palette dst_box src_volume src_palette
          src_box filter color_key tr
        = (l.1, tr ++ [Event.GetDesc src_volume, Event.LockBox src_volume none D3DLOCK_READONLY l.1 l.2]))
    ∧ (FAILED l.1 = false →
      (l.2.pBits = NULL →
        D3DXLoadVolumeFromVolume ext dst_volume dst_palette dst_box src_volume src_palette
          src_box filter color_key tr
          = (D3DERR_INVALIDCALL, tr ++ [Event.GetDesc src_volume, Event.LockBox src_volume none D3DLOCK_READONLY l.1 l.2,
              Event.UnlockBox src_volume]))
      ∧ (l.2.pBits ≠ NULL → (sdesc.Format = D3DFMT_UNKNOWN ∨ sb.Right ≤ sb.Left ∨ sb.Bottom ≤ sb.Top
          ∨ sb.Back ≤ sb.Front) →
        D3DXLoadVolumeFromVolume ext dst_volume dst_palette dst_box src_volume src_palette
          src_box filter color_key tr
          = (E_FAIL, tr ++ [Event.GetDesc src_volume, Event.LockBox src_volume none D3DLOCK_READONLY l.1 l.2,
              Event.UnlockBox src_volume]))
      ∧ (l.2.pBits ≠ NULL → ¬ (sdesc.Format = D3DFMT_UNKNOWN ∨ sb.Right ≤ sb.Left ∨ sb.Bottom ≤ sb.Top
          ∨ sb.Back ≤ sb.Front) →
        (ext.get_format_info sdesc.Format).type = format_type.FORMAT_UNKNOWN →
        D3DXLoadVolumeFromVolume ext dst_volume dst_palette dst_box src_volume src_palette
          src_box filter color_key tr
          = (E_NOTIMPL, tr ++ [Event.GetDesc src_volume, Event.LockBox src_volume none D3DLOCK_READONLY l.1 l.2,
              Event.UnlockBox src_volume]))
      ∧ (l.2.pBits ≠ NULL → ¬ (sdesc.Format = D3DFMT_UNKNOWN ∨ sb.Right ≤ sb.Left ∨ sb.Bottom ≤ sb.Top
          ∨ sb.Back ≤ sb.Front) →
        (ext.get_format_info sdesc.Format).type ≠ format_type.FORMAT_UNKNOWN → (ext.get_format_info ddesc.Format).type = format_type.FORMAT_UNKNOWN →
        D3DXLoadVolumeFromVolume ext dst_volume dst_palette dst_box src_volume src_palette
          src_box filter color_key tr
          = (E_NOTIMPL, tr ++ [Event.GetDesc src_volume, Event.LockBox src_volume none D3DLOCK_READONLY l.1 l.2,
              Event.GetDesc dst_volume, Event.UnlockBox src_volume]))
      ∧ (l.2.pBits ≠ NULL → ¬ (sdesc.Format = D3DFMT_UNKNOWN ∨ sb.Right ≤ sb.Left ∨ sb.Bottom ≤ sb.Top
          ∨ sb.Back ≤ sb.Front) →
        (ext.get_format_info sdesc.Format).type ≠ format_type.FORMAT_UNKNOWN → (ext.get_format_info ddesc.Format).type ≠ format_type.FORMAT_UNKNOWN →
        (∃ b, dst_box = some b ∧ (b.Right ≤ b.Left ∨ b.Bottom ≤ b.Top ∨ b.Back ≤ b.Front
          ∨ ddesc.Width < b.Right ∨ ddesc.Height < b.Bottom ∨ ddesc.Depth < b.Back)) →
        D3DXLoadVolumeFromVolume ext dst_volume dst_palette dst_box src_volume src_palette
          src_box filter color_key tr
          = (D3DERR_INVALIDCALL, tr ++ [Event.GetDesc src_volume, Event.LockBox src_volume none D3DLOCK_READONLY l.1 l.2,
              Event.GetDesc dst_volume, Event.UnlockBox src_volume]))
      ∧ (l.2.pBits ≠ NULL → ¬ (sdesc.Format = D3DFMT_UNKNOWN ∨ sb.Right ≤ sb.Left ∨ sb.Bottom ≤ sb.Top
          ∨ sb.Back ≤ sb.Front) →
        (ext.get_format_info sdesc.Format).type ≠ format_type.FORMAT_UNKNOWN → (ext.get_format_info ddesc.Format).type ≠ format_type.FORMAT_UNKNOWN →
        ¬ (∃ b, dst_box = some b ∧ (b.Right ≤ b.Left ∨ b.Bottom ≤ b.Top ∨ b.Back ≤ b.Front
          ∨ ddesc.Width < b.Right ∨ ddesc.Height < b.Bottom ∨ ddesc.Depth < b.Back)) →
        FAILED init.1 = true →
        D3DXLoadVolumeFromVolume ext dst_volume dst_palette dst_box src_volume src_palette
          src_box filter color_key tr
          = (init.1, tr ++ [Event.GetDesc src_volume, Event.LockBox src_volume none D3DLOCK_READONLY l.1 l.2,
              Event.GetDesc dst_volume, Event.UnlockBox src_volume]))
      ∧ (l.2.pBits = NULL ∨ (sdesc.Format = D3DFMT_UNKNOWN ∨ sb.Right ≤ sb.Left ∨ sb.Bottom ≤ sb.Top
          ∨ sb.Back ≤ sb.Front)
          ∨ (ext.get_format_info sdesc.Format).type = format_type.FORMAT_UNKNOWN ∨ (ext.get_format_info ddesc.Format).type = format_type.FORMAT_UNKNOWN
          ∨ (∃ b, dst_box = some b ∧ (b.Right ≤ b.Left ∨ b.Bottom ≤ b.Top ∨ b.Back ≤ b.Front
          ∨ ddesc.Width < b.Right ∨ ddesc.Height < b.Bottom ∨ ddesc.Depth < b.Back))
          ∨ FAILED init.1 = true →
        FAILED (D3DXLoadVolumeFromVolume ext dst_volume dst_palette dst_box src_volume src_palette
          src_box filter color_key tr).1 = true
        ∧ ((D3DXLoadVolumeFromVolume ext dst_volume dst_palette dst_box src_volume src_palette
          src_box filter color_key tr).2
            = tr ++ [Event.GetDesc src_volume, Event.LockBox src_volume none D3DLOCK_READONLY l.1 l.2,
              Event.UnlockBox src_volume]
          ∨ (D3DXLoadVolumeFromVolume ext dst_volume dst_palette dst_box src_volume src_palette
          src_box filter color_key tr).2
            = tr ++ [Event.GetDesc src_volume, Event.LockBox src_volume none D3DLOCK_READONLY l.1 l.2,
              Event.GetDesc dst_volume, Event.UnlockBox src_volume])
        ∧ (∀ volume, lockCalls volume (D3DXLoadVolumeFromVolume ext dst_volume dst_palette dst_box src_volume src_palette
          src_box filter color_key tr).2
            = lockCalls volume tr ++ (if volume = src_volume then [l.1] else []))
        ∧ unlockCalls src_volume (D3DXLoadVolumeFromVolume ext dst_volume dst_palette dst_box src_volume src_palette
          src_box filter color_key tr).2
            = unlockCalls src_volume tr + 1
        ∧ (dst_volume ≠ src_volume →
            lockCalls dst_volume (D3DXLoadVolumeFromVolume ext dst_volume dst_palette dst_box src_volume src_palette
          src_box filter color_key tr).2
              = lockCalls dst_volume tr))) := by
  have hn : ¬ (dst_volume = NULL ∨ src_volume = NULL) := by
    push_neg
    exact ⟨hd, hs⟩
  have fI : FAILED D3DERR_INVALIDCALL = true := by decide
  have fF : FAILED E_FAIL = true := by decide
  have fN : FAILED E_NOTIMPL = true := by decide
  constructor
  · intro hf
    rw [← hl] at hf ⊢
    unfold D3DXLoadVolumeFromVolume
    rw [if_neg hn]
    simp only []
    rw [if_pos hf]
    simp
  · intro hf
    have hf1 : ¬ FAILED (ext.LockBox (tr ++ [Event.GetDesc src_volume]) src_volume none
        D3DLOCK_READONLY).1 = true := by
      rw [hl]
      simp [hf]
    have hR := D3DXLoadVolumeFromVolume_locked ext dst_volume dst_palette dst_box src_volume
      src_palette src_box filter color_key tr hn hf1
    simp only [List.append_assoc, List.singleton_append] at hR
    rw [hl, hsd, hsb] at hR
    have e1 : l.2.pBits ≠ NULL → ¬ (dst_volume = NULL ∨ l.2.pBits = NULL) := by
      intro hp h
      rcases h with h | h
      · exact hd h
      · exact hp h
    have A1 : l.2.pBits = NULL →
        D3DXLoadVolumeFromVolume ext dst_volume dst_palette dst_box src_volume src_palette
          src_box filter color_key tr
          = (D3DERR_INVALIDCALL, tr ++ [Event.GetDesc src_volume, Event.LockBox src_volume none D3DLOCK_READONLY l.1 l.2,
              Event.UnlockBox src_volume]) := by
      intro hp
      rw [hR, D3DXLoadVolumeFromMemory_exit_null ext dst_volume dst_palette dst_box l.2.pBits sdesc.Format
        (ULONG_of l.2.RowPitch) (ULONG_of l.2.SlicePitch) src_palette (some sb) filter color_key
        (tr ++ [Event.GetDesc src_volume, Event.LockBox src_volume none D3DLOCK_READONLY l.1 l.2]) (Or.inr hp)]
      simp
    have A2 : l.2.pBits ≠ NULL → (sdesc.Format = D3DFMT_UNKNOWN ∨ sb.Right ≤ sb.Left ∨ sb.Bottom ≤ sb.Top
          ∨ sb.Back ≤ sb.Front) →
        D3DXLoadVolumeFromVolume ext dst_volume dst_palette dst_box src_volume src_palette
          src_box filter color_key tr
          = (E_FAIL, tr ++ [Event.GetDesc src_volume, Event.LockBox src_volume none D3DLOCK_READONLY l.1 l.2,
              Event.UnlockBox src_volume]) := by
      intro hp h2
      rw [hR, D3DXLoadVolumeFromMemory_exit_src_box ext dst_volume dst_palette dst_box l.2.pBits sdesc.Format
        (ULONG_of l.2.RowPitch) (ULONG_of l.2.SlicePitch) src_palette sb filter color_key
        (tr ++ [Event.GetDesc src_volume, Event.LockBox src_volume none D3DLOCK_READONLY l.1 l.2]) (e1 hp) h2]
      simp
    have A3 : l.2.pBits ≠ NULL → ¬ (sdesc.Format = D3DFMT_UNKNOWN ∨ sb.Right ≤ sb.Left ∨ sb.Bottom ≤ sb.Top
          ∨ sb.Back ≤ sb.Front) →
        (ext.get_format_info sdesc.Format).type = format_type.FORMAT_UNKNOWN →
        D3DXLoadVolumeFromVolume ext dst_volume dst_palette dst_box src_volume src_palette
          src_box filter color_key tr
          = (E_NOTIMPL, tr ++ [Event.GetDesc src_volume, Event.LockBox src_volume none D3DLOCK_READONLY l.1 l.2,
              Event.UnlockBox src_volume]) := by
      intro hp h2 h3
      rw [hR, D3DXLoadVolumeFromMemory_exit_src_format ext dst_volume dst_palette dst_box l.2.pBits sdesc.Format
        (ULONG_of l.2.RowPitch) (ULONG_of l.2.SlicePitch) src_palette sb filter color_key
        (tr ++ [Event.GetDesc src_volume, Event.LockBox src_volume none D3DLOCK_READONLY l.1 l.2]) (e1 hp) h2 h3]
      simp
    have A4 : l.2.pBits ≠ NULL → ¬ (sdesc.Format = D3DFMT_UNKNOWN ∨ sb.Right ≤ sb.Left ∨ sb.Bottom ≤ sb.Top
          ∨ sb.Back ≤ sb.Front) →
        (ext.get_format_info sdesc.Format).type ≠ format_type.FORMAT_UNKNOWN → (ext.get_format_info ddesc.Format).type = format_type.FORMAT_UNKNOWN →
        D3DXLoadVolumeFromVolume ext dst_volume dst_palette dst_box src_volume src_palette
          src_box filter color_key tr
          = (E_NOTIMPL, tr ++ [Event.GetDesc src_volume, Event.LockBox src_volume none D3DLOCK_READONLY l.1 l.2,
              Event.GetDesc dst_volume, Event.UnlockBox src_volume]) := by
      intro hp h2 h3 h4
      rw [hR, D3DXLoadVolumeFromMemory_exit_dst_format ext dst_volume dst_palette dst_box l.2.pBits sdesc.Format
        (ULONG_of l.2.RowPitch) (ULONG_of l.2.SlicePitch) src_palette sb filter color_key
        (tr ++ [Event.GetDesc src_volume, Event.LockBox src_volume none D3DLOCK_READONLY l.1 l.2]) (e1 hp) h2 h3
        (by rw [hdd]; exact h4)]
      simp
    have A5 : l.2.pBits ≠ NULL → ¬ (sdesc.Format = D3DFMT_UNKNOWN ∨ sb.Right ≤ sb.Left ∨ sb.Bottom ≤ sb.Top
          ∨ sb.Back ≤ sb.Front) →
        (ext.get_format_info sdesc.Format).type ≠ format_type.FORMAT_UNKNOWN → (ext.get_format_info ddesc.Format).type ≠ format_type.FORMAT_UNKNOWN →
        (∃ b, dst_box = some b ∧ (b.Right ≤ b.Left ∨ b.Bottom ≤ b.Top ∨ b.Back ≤ b.Front
          ∨ ddesc.Width < b.Right ∨ ddesc.Height < b.Bottom ∨ ddesc.Depth < b.Back)) →
        D3DXLoadVolumeFromVolume ext dst_volume dst_palette dst_box src_volume src_palette
          src_box filter color_key tr
          = (D3DERR_INVALIDCALL, tr ++ [Event.GetDesc src_volume, Event.LockBox src_volume none D3DLOCK_READONLY l.1 l.2,
              Event.GetDesc dst_volume, Event.UnlockBox src_volume]) := by
      intro hp h2 h3 h4 h5
      obtain ⟨b, hb, hbad⟩ := h5
      rw [hR, D3DXLoadVolumeFromMemory_exit_dst_box ext dst_volume dst_palette dst_box l.2.pBits sdesc.Format
        (ULONG_of l.2.RowPitch) (ULONG_of l.2.SlicePitch) src_palette sb filter color_key
        (tr ++ [Event.GetDesc src_volume, Event.LockBox src_volume none D3DLOCK_READONLY l.1 l.2]) (e1 hp) h2 h3
        (by rw [hdd]; exact h4)
        (by rw [hdd, hb]; exact resolve_dst_box_rejected b ddesc hbad)]
      simp
    have A6 : l.2.pBits ≠ NULL → ¬ (sdesc.Format = D3DFMT_UNKNOWN ∨ sb.Right ≤ sb.Left ∨ sb.Bottom ≤ sb.Top
          ∨ sb.Back ≤ sb.Front) →
        (ext.get_format_info sdesc.Format).type ≠ format_type.FORMAT_UNKNOWN → (ext.get_format_info ddesc.Format).type ≠ format_type.FORMAT_UNKNOWN →
        ¬ (∃ b, dst_box = some b ∧ (b.Right ≤ b.Left ∨ b.Bottom ≤ b.Top ∨ b.Back ≤ b.Front
          ∨ ddesc.Width < b.Right ∨ ddesc.Height < b.Bottom ∨ ddesc.Depth < b.Back)) →
        FAILED init.1 = true →
        D3DXLoadVolumeFromVolume ext dst_volume dst_palette dst_box src_volume src_palette
          src_box filter color_key tr
          = (init.1, tr ++ [Event.GetDesc src_volume, Event.LockBox src_volume none D3DLOCK_READONLY l.1 l.2,
              Event.GetDesc dst_volume, Event.UnlockBox src_volume]) := by
      intro hp h2 h3 h4 h5 h6
      obtain ⟨db, hdb⟩ := resolve_dst_box_accepted dst_box ddesc h5
      rw [hR, D3DXLoadVolumeFromMemory_exit_init ext dst_volume dst_palette dst_box l.2.pBits sdesc.Format
        (ULONG_of l.2.RowPitch) (ULONG_of l.2.SlicePitch) src_palette sb filter color_key
        (tr ++ [Event.GetDesc src_volume, Event.LockBox src_volume none D3DLOCK_READONLY l.1 l.2]) db (e1 hp) h2 h3
        (by rw [hdd]; exact h4) (by rw [hdd]; exact hdb) (by rw [hin]; exact h6), hin]
      simp
    refine ⟨A1, A2, A3, A4, A5, A6, ?_⟩
    intro hV
    have hsum : ∀ (code : HRESULT) (log : List Event),
        D3DXLoadVolumeFromVolume ext dst_volume dst_palette dst_box src_volume src_palette
          src_box filter color_key tr = (code, log) →
        FAILED code = true →
        (log = tr ++ [Event.GetDesc src_volume, Event.LockBox src_volume none D3DLOCK_READONLY l.1 l.2,
              Event.UnlockBox src_volume]
          ∨ log = tr ++ [Event.GetDesc src_volume, Event.LockBox src_volume none D3DLOCK_READONLY l.1 l.2,
              Event.GetDesc dst_volume, Event.UnlockBox src_volume]) →
        FAILED (D3DXLoadVolumeFromVolume ext dst_volume dst_palette dst_box src_volume src_palette
          src_box filter color_key tr).1 = true
        ∧ ((D3DXLoadVolumeFromVolume ext dst_volume dst_palette dst_box src_volume src_palette
          src_box filter color_key tr).2
            = tr ++ [Event.GetDesc src_volume, Event.LockBox src_volume none D3DLOCK_READONLY l.1 l.2,
              Event.UnlockBox src_volume]
          ∨ (D3DXLoadVolumeFromVolume ext dst_volume dst_palette dst_box src_volume src_palette
          src_box filter color_key tr).2
            = tr ++ [Event.GetDesc src_volume, Event.LockBox src_volume none D3DLOCK_READONLY l.1 l.2,
              Event.GetDesc dst_volume, Event.UnlockBox src_volume])
        ∧ (∀ volume, lockCalls volume (D3DXLoadVolumeFromVolume ext dst_volume dst_palette dst_box src_volume src_palette
          src_box filter color_key tr).2
            = lockCalls volume tr ++ (if volume = src_volume then [l.1] else []))
        ∧ unlockCalls src_volume (D3DXLoadVolumeFromVolume ext dst_volume dst_palette dst_box src_volume src_palette
          src_box filter color_key tr).2
            = unlockCalls src_volume tr + 1
        ∧ (dst_volume ≠ src_volume →
            lockCalls dst_volume (D3DXLoadVolumeFromVolume ext dst_volume dst_palette dst_box src_volume src_palette
          src_box filter color_key tr).2
              = lockCalls dst_volume tr) := by
      intro code log hRe hc hlog
      rw [hRe]
      have hlk : ∀ volume, lockCalls volume log
          = lockCalls volume tr ++ (if volume = src_volume then [l.1] else []) := by
        intro volume
        by_cases hv : volume = src_volume
        · subst hv
          rcases hlog with h | h <;> subst h <;> simp [lockCalls]
        · have hv1 : ¬ src_volume = volume := fun h => hv h.symm
          rcases hlog with h | h <;> subst h <;> simp [lockCalls, hv, hv1]
      refine ⟨hc, hlog, hlk, ?_, ?_⟩
      · rcases hlog with h | h <;> subst h <;> simp [unlockCalls]
      · intro hne
        rw [hlk dst_volume]
        simp [hne]
    by_cases hp : l.2.pBits = NULL
    · exact hsum _ _ (A1 hp) fI (Or.inl rfl)
    · by_cases h2 : (sdesc.Format = D3DFMT_UNKNOWN ∨ sb.Right ≤ sb.Left ∨ sb.Bottom ≤ sb.Top
          ∨ sb.Back ≤ sb.Front)
      · exact hsum _ _ (A2 hp h2) fF (Or.inl rfl)
      · by_cases h3 : (ext.get_format_info sdesc.Format).type = format_type.FORMAT_UNKNOWN
        · exact hsum _ _ (A3 hp h2 h3) fN (Or.inl rfl)
        · by_cases h4 : (ext.get_format_info ddesc.Format).type = format_type.FORMAT_UNKNOWN
          · exact hsum _ _ (A4 hp h2 h3 h4) fN (Or.inr rfl)
          · by_cases h5 : (∃ b, dst_box = some b ∧ (b.Right ≤ b.Left ∨ b.Bottom ≤ b.Top ∨ b.Back ≤ b.Front
          ∨ ddesc.Width < b.Right ∨ ddesc.Height < b.Bottom ∨ ddesc.Depth < b.Back))
            · exact hsum _ _ (A5 hp h2 h3 h4 h5) fI (Or.inr rfl)
            · have h6 : FAILED init.1 = true := by
                rcases hV with h | h | h | h | h | h
                · exact absurd h hp
                · exact absurd h h2
                · exact absurd h h3
                · exact absurd h h4
                · exact absurd h h5
                · exact h
              exact hsum _ _ (A6 hp h2 h3 h4 h5 h6) h6 (Or.inr rfl)

theorem D3DXLoadVolumeFromVolume_validation_failure_witness :
    D3DXLoadVolumeFromVolume sampleExtern 0x6000 NULL none 0x8000 NULL
        (some ⟨5, 0, 5, 8, 0, 4⟩) 1 0 []
      = (E_FAIL, [Event.GetDesc 0x8000,
          Event.LockBox 0x8000 none D3DLOCK_READONLY D3D_OK ⟨32, 256, 0x9000⟩,
          Event.UnlockBox 0x8000])
    ∧ D3DXLoadVolumeFromVolume sampleExtern 0x6000 NULL (some ⟨4, 0, 2, 8, 0, 4⟩) 0x8000 NULL
        none 1 0 []
      = (D3DERR_INVALIDCALL, [Event.GetDesc 0x8000,
          Event.LockBox 0x8000 none D3DLOCK_READONLY D3D_OK ⟨32, 256, 0x9000⟩,
          Event.GetDesc 0x6000, Event.UnlockBox 0x8000])
    ∧ D3DXLoadVolumeFromVolume sampleExtern 0x6000 NULL none 0x7000 NULL
        (some ⟨5, 0, 5, 8, 0, 4⟩) 1 0 []
      = (D3DERR_INVALIDCALL, [Event.GetDesc 0x7000,
          Event.LockBox 0x7000 none D3DLOCK_READONLY D3DERR_INVALIDCALL ⟨0, 0, NULL⟩]) :=
  ⟨((D3DXLoadVolumeFromVolume_validation_failure sampleExtern 0x6000 NULL none 0x8000 NULL
      (some ⟨5, 0, 5, 8, 0, 4⟩) 1 0 [] _ _ _ _ _ (by decide) (by decide) rfl rfl rfl rfl
      rfl).2 (by decide)).2.1 (by decide) (by decide),
   ((D3DXLoadVolumeFromVolume_validation_failure sampleExtern 0x6000 NULL
      (some ⟨4, 0, 2, 8, 0, 4⟩) 0x8000 NULL none 1 0 [] _ _ _ _ _ (by decide) (by decide)
      rfl rfl rfl rfl rfl).2 (by decide)).2.2.2.2.1 (by decide) (by decide) (by decide)
      (by decide) ⟨⟨4, 0, 2, 8, 0, 4⟩, rfl, by decide⟩,
   (D3DXLoadVolumeFromVolume_validation_failure sampleExtern 0x6000 NULL none 0x7000 NULL
      (some ⟨5, 0, 5, 8, 0, 4⟩) 1 0 [] _ _ _ _ _ (by decide) (by decide) rfl rfl rfl rfl
      rfl).1 (by decide)⟩

end D3dx9

/-! ## Object creation -/

namespace Winegstreamer

/-- `video_encoder_create` either fails and hands out nothing, or succeeds
with `S_OK` and a non-null encoder of count 1, having made the three creation
calls and no release. -/
theorem video_encoder_create_spec (ext : Extern) (tr : List Event)
    (r : HRESULT × Option (Ptr × video_encoder) × List Event)
    (h : video_encoder_create ext tr = r) :
    (FAILED r.1 = true ∧ r.2.1 = none)
    ∨ (∃ p a hr1 hr2, p ≠ NULL ∧ r = (S_OK, some (p, ⟨1, a⟩),
        tr ++ [Event.calloc p, Event.MFCreateAttributes 16 hr1 a,
          Event.IMFAttributes_SetUINT32 a 1 hr2])) := by
  unfold video_encoder_create at h
  simp only [] at h
  split at h
  · subst h; left; exact ⟨(by decide : FAILED E_OUTOFMEMORY = true), rfl⟩
  · rename_i hp
    split at h
    · rename_i h1
      subst h; left; exact ⟨h1, rfl⟩
    · split at h
      · rename_i h2
        subst h; left; exact ⟨h2, rfl⟩
      · subst h; right
        refine ⟨?wp, ?wa, ?whr1, ?whr2, ?whp, ?wheq⟩
        case wheq =>
          simp only [List.append_assoc]
          exact rfl
        case whp => exact hp

theorem transform_QueryInterface_supported (p : Ptr) (a : Ptr) (riid : GUID)
    (h : riid = IID_IMFTransform ∨ riid = IID_IUnknown) :
    transform_QueryInterface p ⟨1, a⟩ riid = (S_OK, p, ⟨2, a⟩) := by
  have h2 : InterlockedIncrement 1 = 2 := by decide
  rcases h with h | h <;> subst h <;>
    simp [transform_QueryInterface, IsEqualGUID, transform_AddRef, h2]

theorem transform_QueryInterface_unsupported (p : Ptr) (encoder : video_encoder) (riid : GUID)
    (h1 : riid ≠ IID_IMFTransform) (h2 : riid ≠ IID_IUnknown) :
    transform_QueryInterface p encoder riid = (E_NOINTERFACE, NULL, encoder) := by
  simp [transform_QueryInterface, IsEqualGUID, h1, h2]

theorem transform_Release_two (p a : Ptr) (tr : List Event) :
    transform_Release p ⟨2, a⟩ tr = (1, some ⟨1, a⟩, tr) := by
  have h1 : InterlockedDecrement 2 = 1 := by decide
  have h2 : ULONG_of 1 = 1 := by decide
  simp [transform_Release, h1, h2]

theorem transform_Release_one (p a : Ptr) (tr : List Event) :
    transform_Release p ⟨1, a⟩ tr
      = (0, none, tr ++ [Event.IMFAttributes_Release a, Event.free p]) := by
  have h1 : InterlockedDecrement 1 = 0 := by decide
  have h2 : ULONG_of 0 = 0 := by decide
  simp [transform_Release, h1, h2]

/-- The two outcomes of `h264_encoder_create` once the support check has
passed and the encoder has been created: a supported interface id leaves the
encoder allocated with count 1; an unsupported one frees it, with one release
of its attribute store and one `free`. -/
theorem h264_encoder_create_created (ext : Extern) (riid : GUID) (tr : List Event)
    (p a : Ptr) (tr2 : List Event)
    (hc : FAILED (ext.check_video_transform_support tr) = false)
    (hv : video_encoder_create ext
      (tr ++ [Event.check_video_transform_support (ext.check_video_transform_support tr)])
        = (S_OK, some (p, ⟨1, a⟩), tr2)) :
    (riid = IID_IMFTransform ∨ riid = IID_IUnknown →
      h264_encoder_create ext riid tr = (S_OK, some p, some (p, ⟨1, a⟩), tr2))
    ∧ (riid ≠ IID_IMFTransform → riid ≠ IID_IUnknown →
      h264_encoder_create ext riid tr
        = (E_NOINTERFACE, some NULL, none,
            tr2 ++ [Event.IMFAttributes_Release a, Event.free p])) := by
  have hs : FAILED S_OK = false := by decide
  constructor
  · intro hr
    unfold h264_encoder_create
    simp only [hc, hv, hs, transform_QueryInterface_supported p a riid hr, transform_Release_two]
    simp
  · intro h1 h2
    unfold h264_encoder_create
    simp only [hc, hv, hs, transform_QueryInterface_unsupported p _ riid h1 h2,
      transform_Release_one]
    simp

end Winegstreamer

/-- C10: the factories hand out fresh objects of count 1.
`DocumentMgr_Constructor`, when it succeeds, returns a non-null manager with
count 1 and both slots null.  In `h264_encoder_create`, once the support check
has passed and `video_encoder_create` has succeeded, the encoder is non-null
with count 1, and then: for a supported interface id (`IID_IMFTransform` or
`IID_IUnknown`) the call returns `S_OK` and the encoder, still allocated, with
count exactly 1 after the internal query and release, nothing released; for
any other id the call returns `E_NOINTERFACE` with a null output, and the
encoder is freed exactly once and its attribute store released exactly once.
A successful `h264_encoder_create` is always of the first kind. -/
theorem factories_hand_out_count_one (mext : Msctf.Extern) (wext : Winegstreamer.Extern)
    (riid : GUID) (mtr : List Msctf.Event) (wtr : List Winegstreamer.Event) :
    (FAILED (Msctf.DocumentMgr_Constructor mext mtr).1 = false →
      ∃ p, p ≠ NULL ∧ Msctf.DocumentMgr_Constructor mext mtr
        = (S_OK, some p, some ⟨1, NULL, NULL⟩, mtr ++ [Msctf.Event.HeapAlloc p]))
    ∧ (FAILED (wext.check_video_transform_support wtr) = false →
      FAILED (Winegstreamer.video_encoder_create wext (wtr ++
        [Winegstreamer.Event.check_video_transform_support
          (wext.check_video_transform_support wtr)])).1 = false →
      ∃ p a tr2, p ≠ NULL
        ∧ Winegstreamer.video_encoder_create wext (wtr ++
            [Winegstreamer.Event.check_video_transform_support
              (wext.check_video_transform_support wtr)]) = (S_OK, some (p, ⟨1, a⟩), tr2)
        ∧ (riid = IID_IMFTransform ∨ riid = IID_IUnknown →
            Winegstreamer.h264_encoder_create wext riid wtr
              = (S_OK, some p, some (p, ⟨1, a⟩), tr2)
            ∧ Winegstreamer.destructorRuns p
                (Winegstreamer.h264_encoder_create wext riid wtr).2.2.2
              = Winegstreamer.destructorRuns p wtr
            ∧ Winegstreamer.attributeReleases a
                (Winegstreamer.h264_encoder_create wext riid wtr).2.2.2
              = Winegstreamer.attributeReleases a wtr)
        ∧ (riid ≠ IID_IMFTransform → riid ≠ IID_IUnknown →
            Winegstreamer.h264_encoder_create wext riid wtr
              = (E_NOINTERFACE, some NULL, none,
                  tr2 ++ [Winegstreamer.Event.IMFAttributes_Release a,
                    Winegstreamer.Event.free p])
            ∧ Winegstreamer.destructorRuns p
                (Winegstreamer.h264_encoder_create wext riid wtr).2.2.2
              = Winegstreamer.destructorRuns p wtr + 1
            ∧ Winegstreamer.attributeReleases a
                (Winegstreamer.h264_encoder_create wext riid wtr).2.2.2
              = Winegstreamer.attributeReleases a wtr + 1))
    ∧ (FAILED (Winegstreamer.h264_encoder_create wext riid wtr).1 = false →
      (riid = IID_IMFTransform ∨ riid = IID_IUnknown)
      ∧ FAILED (wext.check_video_transform_support wtr) = false
      ∧ FAILED (Winegstreamer.video_encoder_create wext (wtr ++
          [Winegstreamer.Event.check_video_transform_support
            (wext.check_video_transform_support wtr)])).1 = false) := by
  refine ⟨?_, ?_, ?_⟩
  · intro h
    unfold Msctf.DocumentMgr_Constructor at h ⊢
    simp only [] at h ⊢
    split at h
    · have hE : FAILED E_OUTOFMEMORY = true := by decide
      simp [hE] at h
    · rename_i hp
      exact ⟨_, hp, by rw [if_neg hp]⟩
  · intro hc hv
    rcases Winegstreamer.video_encoder_create_spec wext (wtr ++
        [Winegstreamer.Event.check_video_transform_support
          (wext.check_video_transform_support wtr)]) _ rfl with ⟨hf, _⟩ | ⟨p, a, hr1, hr2, hp, he⟩
    · rw [hv] at hf
      exact absurd hf (by simp)
    · refine ⟨p, a, _, hp, he, ?_, ?_⟩
      · intro hs
        have h := (Winegstreamer.h264_encoder_create_created wext riid wtr p a _ hc he).1 hs
        rw [h]
        refine ⟨rfl, ?_, ?_⟩
        · simp [Winegstreamer.destructorRuns]
        · simp [Winegstreamer.attributeReleases]
      · intro h1 h2
        have h := (Winegstreamer.h264_encoder_create_created wext riid wtr p a _ hc he).2 h1 h2
        rw [h]
        refine ⟨rfl, ?_, ?_⟩
        · simp [Winegstreamer.destructorRuns]
        · simp [Winegstreamer.attributeReleases]
  · intro h
    by_cases hc : FAILED (wext.check_video_transform_support wtr) = true
    · exfalso
      unfold Winegstreamer.h264_encoder_create at h
      simp only [hc, if_true] at h
      simp at h
    · have hc1 : FAILED (wext.check_video_transform_support wtr) = false := by simpa using hc
      rcases Winegstreamer.video_encoder_create_spec wext (wtr ++
        [Winegstreamer.Event.check_video_transform_support
          (wext.check_video_transform_support wtr)]) _ rfl with ⟨hf, hn⟩ | ⟨p, a, hr1, hr2, hp, he⟩
      · exfalso
        unfold Winegstreamer.h264_encoder_create at h
        simp only [hc1, hf, if_true] at h
        simp [hf] at h
      · by_cases hs : riid = IID_IMFTransform ∨ riid = IID_IUnknown
        · refine ⟨hs, hc1, ?_⟩
          rw [he]
          exact (by decide : FAILED S_OK = false)
        · exfalso
          push_neg at hs
          have h3 := (Winegstreamer.h264_encoder_create_created wext riid wtr p a _ hc1 he).2
            hs.1 hs.2
          rw [h3] at h
          have hE : FAILED E_NOINTERFACE = true := by decide
          simp [hE] at h

theorem factories_hand_out_count_one_witness :
    (Msctf.DocumentMgr_Constructor Msctf.sampleExtern []).2.2.1 = some ⟨1, NULL, NULL⟩
    ∧ (Winegstreamer.h264_encoder_create Winegstreamer.sampleExtern IID_IMFTransform
        []).2.2.1.map (fun e => e.2.refcount) = some 1
    ∧ (Winegstreamer.h264_encoder_create Winegstreamer.sampleExtern IID_ITfContext []).2.2.1
        = none
    ∧ Winegstreamer.destructorRuns 0x1000
        (Winegstreamer.h264_encoder_create Winegstreamer.sampleExtern IID_ITfContext []).2.2.2
        = 1 := by
  have T := factories_hand_out_count_one Msctf.sampleExtern Winegstreamer.sampleExtern
  refine ⟨?_, ?_, ?_, ?_⟩
  · obtain ⟨p, _, h⟩ := (T IID_IUnknown [] []).1 (by decide)
    rw [h]
  · obtain ⟨p, a, tr2, _, _, h, _⟩ := (T IID_IMFTransform [] []).2.1 (by decide) (by decide)
    rw [(h (Or.inl rfl)).1]
    rfl
  · obtain ⟨p, a, tr2, _, _, _, h⟩ := (T IID_ITfContext [] []).2.1 (by decide) (by decide)
    rw [(h (by decide) (by decide)).1]
  · decide

/-! ## Push and pop on the context stack -/

namespace Msctf

theorem refDelta_snoc (obj : Ptr) (tr : List Event) (e : Event) :
    refDelta obj (tr ++ [e]) = refDelta obj tr + refEffect obj e := by
  simp [refDelta]

/-- C11: take a manager whose base slot is empty.  For a non-null child whose
`QueryInterface` for the context interface succeeds, `DocumentMgr_Push`
returns `S_OK`, the previous top (null or not) is now in the base slot, the
interface pointer handed out by the child is in the top slot, and the only
call made is that `QueryInterface`: nothing is released, and the reference
count of the pointer handed out grows by exactly one.  For a null child, or
one whose `QueryInterface` fails, the result is `E_INVALIDARG`, the manager is
unchanged and no reference count changes. -/
theorem DocumentMgr_Push_room (ext : Extern) (This : DocumentMgr) (pic : Ptr)
    (tr : List Event) (h1 : This.contextStack1 = NULL) :
    (pic ≠ NULL → FAILED (ext.QueryInterface tr pic IID_ITfContext).1 = false →
      (DocumentMgr_Push ext This pic tr).1 = S_OK
      ∧ (DocumentMgr_Push ext This pic tr).2.1.contextStack1 = This.contextStack0
      ∧ (DocumentMgr_Push ext This pic tr).2.1.contextStack0
          = (ext.QueryInterface tr pic IID_ITfContext).2
      ∧ (DocumentMgr_Push ext This pic tr).2.1.refCount = This.refCount
      ∧ (DocumentMgr_Push ext This pic tr).2.2
          = tr ++ [Event.QueryInterface pic IID_ITfContext
              (ext.QueryInterface tr pic IID_ITfContext).1
              (ext.QueryInterface tr pic IID_ITfContext).2]
      ∧ (∀ obj, refDelta obj (DocumentMgr_Push ext This pic tr).2.2
          = refDelta obj tr
            + (if (ext.QueryInterface tr pic IID_ITfContext).2 = obj then 1 else 0)))
    ∧ (pic = NULL ∨ FAILED (ext.QueryInterface tr pic IID_ITfContext).1 = true →
      (DocumentMgr_Push ext This pic tr).1 = E_INVALIDARG
      ∧ (DocumentMgr_Push ext This pic tr).2.1 = This
      ∧ (∀ obj, refDelta obj (DocumentMgr_Push ext This pic tr).2.2 = refDelta obj tr)) := by
  constructor
  · intro hp hq
    have hq1 : ¬ FAILED (ext.QueryInterface tr pic IID_ITfContext).1 = true := by simp [hq]
    have key : DocumentMgr_Push ext This pic tr
        = (S_OK, { This with contextStack1 := This.contextStack0,
                             contextStack0 := (ext.QueryInterface tr pic IID_ITfContext).2 },
            tr ++ [Event.QueryInterface pic IID_ITfContext
              (ext.QueryInterface tr pic IID_ITfContext).1
              (ext.QueryInterface tr pic IID_ITfContext).2]) := by
      unfold DocumentMgr_Push
      simp only [h1, ne_eq, not_true_eq_false, if_false, hp, hq1]
      simp [hq]
    rw [key]
    refine ⟨rfl, rfl, rfl, rfl, rfl, ?_⟩
    intro obj
    simp only [refDelta_snoc, refEffect, hq, true_and]
  · intro hbad
    by_cases hp : pic = NULL
    · have key : DocumentMgr_Push ext This pic tr = (E_INVALIDARG, This, tr) := by
        unfold DocumentMgr_Push
        simp only [h1, ne_eq, not_true_eq_false, if_false, hp, if_true]
      rw [key]
      exact ⟨rfl, rfl, fun _ => rfl⟩
    · have hq : FAILED (ext.QueryInterface tr pic IID_ITfContext).1 = true := by
        rcases hbad with h | h
        · exact absurd h hp
        · exact h
      have key : DocumentMgr_Push ext This pic tr
          = (E_INVALIDARG, This, tr ++ [Event.QueryInterface pic IID_ITfContext
              (ext.QueryInterface tr pic IID_ITfContext).1
              (ext.QueryInterface tr pic IID_ITfContext).2]) := by
        unfold DocumentMgr_Push
        simp only [h1, ne_eq, not_true_eq_false, if_false, hp, hq, if_true]
      rw [key]
      refine ⟨rfl, rfl, ?_⟩
      intro obj
      simp [refDelta_snoc, refEffect, hq]

theorem DocumentMgr_Push_room_witness :
    (DocumentMgr_Push sampleExtern ⟨1, 0x2000, NULL⟩ 0x4000 []).1 = S_OK
    ∧ (DocumentMgr_Push sampleExtern ⟨1, 0x2000, NULL⟩ 0x4000 []).2.1 = ⟨1, 0x4000, 0x2000⟩
    ∧ (DocumentMgr_Push sampleExtern ⟨1, 0x2000, NULL⟩ 0x4001 []).1 = E_INVALIDARG
    ∧ (DocumentMgr_Push sampleExtern ⟨1, 0x2000, NULL⟩ NULL []).2.1 = ⟨1, 0x2000, NULL⟩ :=
  ⟨((DocumentMgr_Push_room sampleExtern ⟨1, 0x2000, NULL⟩ 0x4000 [] rfl).1 (by decide)
      (by decide)).1,
   by decide,
   ((DocumentMgr_Push_room sampleExtern ⟨1, 0x2000, NULL⟩ 0x4001 [] rfl).2
      (Or.inr (by decide))).1,
   ((DocumentMgr_Push_room sampleExtern ⟨1, 0x2000, NULL⟩ NULL [] rfl).2
      (Or.inl rfl)).2.1⟩

/-- C12: for every state and every flags value other than `TF_POPF_ALL`,
`DocumentMgr_Pop` does the following.  With a non-zero flags value it returns
`E_INVALIDARG` and changes nothing.  With flags 0 and an empty top slot it
returns `E_FAIL` and changes nothing.  With flags 0 and an occupied top slot it
returns `S_OK`, makes exactly one call, the `Release` of the top occupant,
moves the occupant of the base slot to the top and leaves the base slot
null. -/
theorem DocumentMgr_Pop_one (This : DocumentMgr) (dwFlags : Nat) (tr : List Event)
    (hf : dwFlags ≠ TF_POPF_ALL) :
    (dwFlags ≠ 0 → DocumentMgr_Pop This dwFlags tr = (E_INVALIDARG, This, tr))
    ∧ (dwFlags = 0 → This.contextStack0 = NULL →
        DocumentMgr_Pop This dwFlags tr = (E_FAIL, This, tr))
    ∧ (dwFlags = 0 → This.contextStack0 ≠ NULL →
        (DocumentMgr_Pop This dwFlags tr).1 = S_OK
        ∧ (DocumentMgr_Pop This dwFlags tr).2.1.contextStack0 = This.contextStack1
        ∧ (DocumentMgr_Pop This dwFlags tr).2.1.contextStack1 = NULL
        ∧ (DocumentMgr_Pop This dwFlags tr).2.1.refCount = This.refCount
        ∧ (DocumentMgr_Pop This dwFlags tr).2.2 = tr ++ [Event.Release This.contextStack0]
        ∧ (∀ obj, refDelta obj (DocumentMgr_Pop This dwFlags tr).2.2
            = refDelta obj tr - (if This.contextStack0 = obj then 1 else 0))) := by
  refine ⟨?_, ?_, ?_⟩
  · intro h0
    unfold DocumentMgr_Pop
    simp only [hf, if_false, ne_eq, h0, not_false_eq_true, if_true]
  · intro h0 ht
    subst h0
    unfold DocumentMgr_Pop
    rw [if_neg hf]
    simp [ht]
  · intro h0 ht
    have key : DocumentMgr_Pop This dwFlags tr
        = (S_OK, { This with contextStack0 := This.contextStack1, contextStack1 := NULL },
            tr ++ [Event.Release This.contextStack0]) := by
      subst h0
      unfold DocumentMgr_Pop
      rw [if_neg hf]
      simp [ht]
    rw [key]
    refine ⟨rfl, rfl, rfl, rfl, rfl, ?_⟩
    intro obj
    simp only [refDelta_snoc, refEffect]
    split_ifs <;> ring

theorem DocumentMgr_Pop_one_witness :
    DocumentMgr_Pop ⟨1, 0x4000, 0x2000⟩ 2 [] = (E_INVALIDARG, ⟨1, 0x4000, 0x2000⟩, [])
    ∧ DocumentMgr_Pop ⟨1, NULL, NULL⟩ 0 [] = (E_FAIL, ⟨1, NULL, NULL⟩, [])
    ∧ (DocumentMgr_Pop ⟨1, 0x4000, 0x2000⟩ 0 []).2.2 = [Event.Release 0x4000] :=
  ⟨(DocumentMgr_Pop_one ⟨1, 0x4000, 0x2000⟩ 2 [] (by decide)).1 (by decide),
   (DocumentMgr_Pop_one ⟨1, NULL, NULL⟩ 0 [] (by decide)).2.1 rfl rfl,
   ((DocumentMgr_Pop_one ⟨1, 0x4000, 0x2000⟩ 0 [] (by decide)).2.2 rfl
      (by decide)).2.2.2.2.1⟩

end Msctf

/-! ## Call sequences on the context stack -/

namespace Msctf

/-- With an occupied base slot `DocumentMgr_Push` returns at its first test. -/
theorem DocumentMgr_Push_full_aux (ext : Extern) (This : DocumentMgr) (pic : Ptr)
    (tr : List Event) (h1 : ¬ This.contextStack1 = NULL) :
    DocumentMgr_Push ext This pic tr = (TF_E_STACKFULL, This, tr) := by
  simp [DocumentMgr_Push, h1]

/-- A manager handed out by `DocumentMgr_Constructor` has count 1 and two
null slots, lives at the non-null address the heap returned, and the only
call made is the allocation. -/
theorem DocumentMgr_Constructor_fresh (ext : Extern) (tr0 : List Event) (hr : HRESULT)
    (out : Option Ptr) (This0 : DocumentMgr) (tr1 : List Event)
    (hC : DocumentMgr_Constructor ext tr0 = (hr, out, some This0, tr1)) :
    hr = S_OK ∧ out = some (ext.HeapAlloc tr0) ∧ ext.HeapAlloc tr0 ≠ NULL
      ∧ This0 = ⟨1, NULL, NULL⟩ ∧ tr1 = tr0 ++ [Event.HeapAlloc (ext.HeapAlloc tr0)] := by
  unfold DocumentMgr_Constructor at hC
  simp only [] at hC
  split at hC
  · simp at hC
  · rename_i hp
    simp only [Prod.mk.injEq, Option.some.injEq] at hC
    obtain ⟨a, b, c, d⟩ := hC
    exact ⟨a.symm, b.symm, hp, c.symm, d.symm⟩

theorem DocumentMgr_Push_null_aux (ext : Extern) (This : DocumentMgr) (tr : List Event)
    (h1 : This.contextStack1 = NULL) :
    DocumentMgr_Push ext This NULL tr = (E_INVALIDARG, This, tr) := by
  simp [DocumentMgr_Push, h1]

theorem DocumentMgr_Push_failed_aux (ext : Extern) (This : DocumentMgr) (pic : Ptr)
    (tr : List Event) (h1 : This.contextStack1 = NULL) (hp : pic ≠ NULL)
    (hq : FAILED (ext.QueryInterface tr pic IID_ITfContext).1 = true) :
    DocumentMgr_Push ext This pic tr
      = (E_INVALIDARG, This, tr ++ [Event.QueryInterface pic IID_ITfContext
          (ext.QueryInterface tr pic IID_ITfContext).1
          (ext.QueryInterface tr pic IID_ITfContext).2]) := by
  simp [DocumentMgr_Push, h1, hp, hq]

theorem DocumentMgr_Push_ok_aux (ext : Extern) (This : DocumentMgr) (pic : Ptr)
    (tr : List Event) (h1 : This.contextStack1 = NULL) (hp : pic ≠ NULL)
    (hq : FAILED (ext.QueryInterface tr pic IID_ITfContext).1 = false) :
    DocumentMgr_Push ext This pic tr
      = (S_OK, ⟨This.refCount, (ext.QueryInterface tr pic IID_ITfContext).2,
          This.contextStack0⟩,
          tr ++ [Event.QueryInterface pic IID_ITfContext
            (ext.QueryInterface tr pic IID_ITfContext).1
            (ext.QueryInterface tr pic IID_ITfContext).2]) := by
  simp [DocumentMgr_Push, h1, hp, hq]

/-- `DocumentMgr_Push` keeps, for every non-null object, the difference
between its reference count and the number of slots holding it, and keeps the
count of the manager. -/
theorem DocumentMgr_Push_balance (ext : Extern) (This : DocumentMgr) (pic : Ptr)
    (tr : List Event) (obj : Ptr) (ho : obj ≠ NULL) :
    refDelta obj (DocumentMgr_Push ext This pic tr).2.2
        - slotsHolding (DocumentMgr_Push ext This pic tr).2.1 obj
      = refDelta obj tr - slotsHolding This obj
    ∧ (DocumentMgr_Push ext This pic tr).2.1.refCount = This.refCount := by
  by_cases h1 : This.contextStack1 = NULL
  · by_cases hp : pic = NULL
    · subst hp
      rw [DocumentMgr_Push_null_aux ext This tr h1]
      exact ⟨rfl, rfl⟩
    · by_cases hq : FAILED (ext.QueryInterface tr pic IID_ITfContext).1 = true
      · rw [DocumentMgr_Push_failed_aux ext This pic tr h1 hp hq]
        refine ⟨?_, rfl⟩
        simp [refDelta_snoc, refEffect, hq]
      · have hq0 : FAILED (ext.QueryInterface tr pic IID_ITfContext).1 = false := by
          simpa using hq
        rw [DocumentMgr_Push_ok_aux ext This pic tr h1 hp hq0]
        refine ⟨?_, rfl⟩
        have hn : ¬ (NULL = obj) := fun h => ho h.symm
        simp only [refDelta_snoc, refEffect, hq0, true_and, slotsHolding, h1, hn, if_false]
        ring
  · rw [DocumentMgr_Push_full_aux ext This pic tr h1]
    exact ⟨rfl, rfl⟩

/-- `DocumentMgr_Pop` keeps, for every non-null object, the difference
between its reference count and the number of slots holding it, and keeps the
count of the manager. -/
theorem DocumentMgr_Pop_balance (This : DocumentMgr) (dwFlags : Nat)
    (tr : List Event) (obj : Ptr) (ho : obj ≠ NULL) :
    refDelta obj (DocumentMgr_Pop This dwFlags tr).2.2
        - slotsHolding (DocumentMgr_Pop This dwFlags tr).2.1 obj
      = refDelta obj tr - slotsHolding This obj
    ∧ (DocumentMgr_Pop This dwFlags tr).2.1.refCount = This.refCount := by
  have hn : ¬ (NULL = obj) := fun h => ho h.symm
  unfold DocumentMgr_Pop
  split_ifs with hA hF hT
  · refine ⟨?_, rfl⟩
    simp only [refDelta_releaseSlot, slotsHolding, hn, if_false]
    by_cases h0 : This.contextStack0 = obj <;> by_cases h1 : This.contextStack1 = obj <;>
      (simp [h0, h1, ho]; try ring)
  · exact ⟨rfl, rfl⟩
  · exact ⟨rfl, rfl⟩
  · refine ⟨?_, rfl⟩
    simp only [refDelta_snoc, refEffect, slotsHolding, hn, if_false]
    split_ifs <;> ring

/-- A `Push` or `Pop` call keeps the balance of every non-null object and the
count of the manager. -/
theorem stackCall_balance (ext : Extern) (c : StackCall) (hc : StackCall.isPushPop c = true)
    (This : DocumentMgr) (tr : List Event) (obj : Ptr) (ho : obj ≠ NULL) :
    refDelta obj (stackCall ext c This tr).2.2 - slotsHolding (stackCall ext c This tr).2.1 obj
      = refDelta obj tr - slotsHolding This obj
    ∧ (stackCall ext c This tr).2.1.refCount = This.refCount := by
  cases c with
  | Push pic => exact DocumentMgr_Push_balance ext This pic tr obj ho
  | Pop dwFlags => exact DocumentMgr_Pop_balance This dwFlags tr obj ho
  | GetTop ppic => simp [StackCall.isPushPop] at hc
  | GetBase ppic => simp [StackCall.isPushPop] at hc

/-- A sequence of `Push` and `Pop` calls keeps the balance of every non-null
object and the count of the manager. -/
theorem stackCalls_balance (ext : Extern) (obj : Ptr) (ho : obj ≠ NULL) (cs : List StackCall) :
    ∀ (st : DocumentMgr × List Event), (∀ c ∈ cs, StackCall.isPushPop c = true) →
      refDelta obj (stackCalls ext cs st).2 - slotsHolding (stackCalls ext cs st).1 obj
        = refDelta obj st.2 - slotsHolding st.1 obj
      ∧ (stackCalls ext cs st).1.refCount = st.1.refCount := by
  induction cs with
  | nil =>
    intro st _
    exact ⟨rfl, rfl⟩
  | cons c cs ih =>
    intro st hcs
    have hc := hcs c (List.mem_cons_self c cs)
    have hrest : ∀ d ∈ cs, StackCall.isPushPop d = true :=
      fun d hd => hcs d (List.mem_cons_of_mem c hd)
    obtain ⟨a, b⟩ := ih ((stackCall ext c st.1 st.2).2.1, (stackCall ext c st.1 st.2).2.2) hrest
    obtain ⟨a1, b1⟩ := stackCall_balance ext c hc st.1 st.2 obj ho
    simp only [stackCalls]
    exact ⟨a.trans a1, b.trans b1⟩

/-- The last `Release` on a manager of count 1 returns 0 and runs the
destructor. -/
theorem DocumentMgr_Release_last (iface : Ptr) (This : DocumentMgr) (tr : List Event)
    (h : This.refCount = 1) :
    DocumentMgr_Release iface This tr
      = (0, none, releaseSlot This.contextStack1 (releaseSlot This.contextStack0 tr)
          ++ [Event.HeapFree iface]) := by
  have h1 : InterlockedDecrement 1 = 0 := by decide
  have h2 : ULONG_of 0 = 0 := by decide
  simp [DocumentMgr_Release, h, h1, h2, DocumentMgr_Destructor]

theorem releaseSlot_eq (slot : Ptr) (tr : List Event) :
    releaseSlot slot tr = tr ++ (if slot ≠ NULL then [Event.Release slot] else []) := by
  unfold releaseSlot
  by_cases h : slot = NULL <;> simp [h]

/-- C13: take a freshly constructed manager and any sequence of `Push` and
`Pop` calls, with any arguments and flags.  After every step, for every
(non-null) object, the references the manager has taken on it and not yet
released are as many as the slots that hold it.  When the manager, still at
count 1, is then released, the count reaches zero and the destructor makes
exactly one `Release` call per occupied slot before freeing the manager, so
that the net change of the reference count of every object over the lifetime
of the manager is zero. -/
theorem no_leak_no_double_release (ext : Extern) (tr0 : List Event) (hr : HRESULT)
    (iface : Ptr) (This0 : DocumentMgr) (tr1 : List Event) (cs : List StackCall)
    (hC : DocumentMgr_Constructor ext tr0 = (hr, some iface, some This0, tr1))
    (hcs : ∀ c ∈ cs, StackCall.isPushPop c = true) :
    (∀ n obj, obj ≠ NULL →
      refDelta obj (stackCalls ext (cs.take n) (This0, tr1)).2 - refDelta obj tr0
        = slotsHolding (stackCalls ext (cs.take n) (This0, tr1)).1 obj)
    ∧ DocumentMgr_Release iface (stackCalls ext cs (This0, tr1)).1
        (stackCalls ext cs (This0, tr1)).2
      = (0, none, (stackCalls ext cs (This0, tr1)).2
          ++ (if (stackCalls ext cs (This0, tr1)).1.contextStack0 ≠ NULL
              then [Event.Release (stackCalls ext cs (This0, tr1)).1.contextStack0] else [])
          ++ (if (stackCalls ext cs (This0, tr1)).1.contextStack1 ≠ NULL
              then [Event.Release (stackCalls ext cs (This0, tr1)).1.contextStack1] else [])
          ++ [Event.HeapFree iface])
    ∧ (∀ obj, obj ≠ NULL →
      refDelta obj (DocumentMgr_Release iface (stackCalls ext cs (This0, tr1)).1
        (stackCalls ext cs (This0, tr1)).2).2.2 = refDelta obj tr0) := by
  obtain ⟨_, _, _, hT, hl⟩ := DocumentMgr_Constructor_fresh ext tr0 hr _ This0 tr1 hC
  subst hT
  have hbase : ∀ obj, refDelta obj tr1 = refDelta obj tr0 := by
    intro obj
    rw [hl, refDelta_snoc]
    simp [refEffect]
  have hzero : ∀ obj, obj ≠ NULL → slotsHolding ⟨1, NULL, NULL⟩ obj = 0 := by
    intro obj ho
    have hn : ¬ (NULL = obj) := fun h => ho h.symm
    simp [slotsHolding, hn]
  have hinv : ∀ (ds : List StackCall), (∀ c ∈ ds, StackCall.isPushPop c = true) →
      ∀ obj, obj ≠ NULL →
        refDelta obj (stackCalls ext ds (⟨1, NULL, NULL⟩, tr1)).2 - refDelta obj tr0
          = slotsHolding (stackCalls ext ds (⟨1, NULL, NULL⟩, tr1)).1 obj := by
    intro ds hds obj ho
    have h := (stackCalls_balance ext obj ho ds (⟨1, NULL, NULL⟩, tr1) hds).1
    simp only [hzero obj ho, hbase obj, sub_zero] at h
    rw [← h]
    ring
  have hcount : (stackCalls ext cs (⟨1, NULL, NULL⟩, tr1)).1.refCount = 1 := by
    exact (stackCalls_balance ext 1 (by decide) cs (⟨1, NULL, NULL⟩, tr1) hcs).2
  have hrel := DocumentMgr_Release_last iface (stackCalls ext cs (⟨1, NULL, NULL⟩, tr1)).1
    (stackCalls ext cs (⟨1, NULL, NULL⟩, tr1)).2 hcount
  refine ⟨?_, ?_, ?_⟩
  · intro n obj ho
    exact hinv (cs.take n) (fun c hc => hcs c (List.mem_of_mem_take hc)) obj ho
  · rw [hrel, releaseSlot_eq, releaseSlot_eq]
  · intro obj ho
    rw [hrel, refDelta_snoc, refDelta_releaseSlot, refDelta_releaseSlot]
    have h := hinv cs hcs obj ho
    unfold slotsHolding at h
    simp only [refEffect]
    by_cases h0 : (stackCalls ext cs (⟨1, NULL, NULL⟩, tr1)).1.contextStack0 = obj <;>
      by_cases h1 : (stackCalls ext cs (⟨1, NULL, NULL⟩, tr1)).1.contextStack1 = obj <;>
      simp only [h0, h1, ne_eq, ho, not_false_eq_true, and_self, and_false, if_true,
        if_false] at h ⊢ <;>
      omega

theorem no_leak_no_double_release_witness :
    (DocumentMgr_Release 0x1000
      (stackCalls sampleExtern
        [StackCall.Push 0x2000, StackCall.Push 0x4000, StackCall.Pop 0, StackCall.Push 0x2000,
          StackCall.Push 0x6000, StackCall.Pop 2]
        (⟨1, NULL, NULL⟩, [Event.HeapAlloc 0x1000])).1
      (stackCalls sampleExtern
        [StackCall.Push 0x2000, StackCall.Push 0x4000, StackCall.Pop 0, StackCall.Push 0x2000,
          StackCall.Push 0x6000, StackCall.Pop 2]
        (⟨1, NULL, NULL⟩, [Event.HeapAlloc 0x1000])).2).2.1 = none
    ∧ refDelta 0x2000 (DocumentMgr_Release 0x1000
      (stackCalls sampleExtern
        [StackCall.Push 0x2000, StackCall.Push 0x4000, StackCall.Pop 0, StackCall.Push 0x2000,
          StackCall.Push 0x6000, StackCall.Pop 2]
        (⟨1, NULL, NULL⟩, [Event.HeapAlloc 0x1000])).1
      (stackCalls sampleExtern
        [StackCall.Push 0x2000, StackCall.Push 0x4000, StackCall.Pop 0, StackCall.Push 0x2000,
          StackCall.Push 0x6000, StackCall.Pop 2]
        (⟨1, NULL, NULL⟩, [Event.HeapAlloc 0x1000])).2).2.2 = refDelta 0x2000 [] := by
  have T := no_leak_no_double_release sampleExtern [] S_OK 0x1000 ⟨1, NULL, NULL⟩
    [Event.HeapAlloc 0x1000]
    [StackCall.Push 0x2000, StackCall.Push 0x4000, StackCall.Pop 0, StackCall.Push 0x2000,
      StackCall.Push 0x6000, StackCall.Pop 2] (by decide) (by decide)
  exact ⟨by rw [T.2.1], T.2.2 0x2000 (by decide)⟩

/-- The sample collaborator follows the COM rule. -/
theorem sampleExtern_conforming : conforming sampleExtern := by
  intro tr obj ho hq
  unfold sampleExtern at hq ⊢
  simp only [] at hq ⊢
  split_ifs at hq ⊢ with h
  · exact ho
  · exact absurd hq (by decide)

/-- With a collaborator that follows the COM rule, one context-stack call
keeps the stack shape: an occupied base slot has an occupied top slot. -/
theorem stackCall_shape (ext : Extern) (hext : conforming ext) (c : StackCall)
    (This : DocumentMgr) (tr : List Event)
    (h : This.contextStack1 ≠ NULL → This.contextStack0 ≠ NULL) :
    (stackCall ext c This tr).2.1.contextStack1 ≠ NULL →
      (stackCall ext c This tr).2.1.contextStack0 ≠ NULL := by
  cases c with
  | Push pic =>
    simp only [stackCall]
    by_cases h1 : This.contextStack1 = NULL
    · by_cases hp : pic = NULL
      · subst hp
        rw [DocumentMgr_Push_null_aux ext This tr h1]
        exact h
      · by_cases hq : FAILED (ext.QueryInterface tr pic IID_ITfContext).1 = true
        · rw [DocumentMgr_Push_failed_aux ext This pic tr h1 hp hq]
          exact h
        · have hq0 : FAILED (ext.QueryInterface tr pic IID_ITfContext).1 = false := by
            simpa using hq
          rw [DocumentMgr_Push_ok_aux ext This pic tr h1 hp hq0]
          intro _
          exact hext tr pic hp hq0
    · rw [DocumentMgr_Push_full_aux ext This pic tr h1]
      exact h
  | Pop dwFlags =>
    simp only [stackCall]
    unfold DocumentMgr_Pop
    split_ifs with hA hF hT
    · intro hc
      exact absurd rfl hc
    · exact h
    · exact h
    · intro hc
      exact absurd rfl hc
  | GetTop ppic =>
    simp only [stackCall, DocumentMgr_GetTop]
    split_ifs <;> exact h
  | GetBase ppic =>
    simp only [stackCall, DocumentMgr_GetBase]
    split_ifs <;> exact h

/-- A sequence of context-stack calls keeps the stack shape. -/
theorem stackCalls_shape (ext : Extern) (hext : conforming ext) (cs : List StackCall) :
    ∀ (st : DocumentMgr × List Event),
      (st.1.contextStack1 ≠ NULL → st.1.contextStack0 ≠ NULL) →
      (stackCalls ext cs st).1.contextStack1 ≠ NULL →
        (stackCalls ext cs st).1.contextStack0 ≠ NULL := by
  induction cs with
  | nil =>
    intro st h
    exact h
  | cons c cs ih =>
    intro st h
    simp only [stackCalls]
    exact ih _ (stackCall_shape ext hext c st.1 st.2 h)

/-- `DocumentMgr_Push` answers `TF_E_STACKFULL` exactly when the base slot is
occupied. -/
theorem DocumentMgr_Push_full_iff (ext : Extern) (This : DocumentMgr) (pic : Ptr)
    (tr : List Event) :
    (DocumentMgr_Push ext This pic tr).1 = TF_E_STACKFULL ↔ This.contextStack1 ≠ NULL := by
  have hI : ¬ (E_INVALIDARG = TF_E_STACKFULL) := by decide
  have hS : ¬ (S_OK = TF_E_STACKFULL) := by decide
  constructor
  · intro hfull h1
    by_cases hp : pic = NULL
    · subst hp
      rw [DocumentMgr_Push_null_aux ext This tr h1] at hfull
      exact hI hfull
    · by_cases hq : FAILED (ext.QueryInterface tr pic IID_ITfContext).1 = true
      · rw [DocumentMgr_Push_failed_aux ext This pic tr h1 hp hq] at hfull
        exact hI hfull
      · have hq0 : FAILED (ext.QueryInterface tr pic IID_ITfContext).1 = false := by
          simpa using hq
        rw [DocumentMgr_Push_ok_aux ext This pic tr h1 hp hq0] at hfull
        exact hS hfull
  · intro h1
    rw [DocumentMgr_Push_full_aux ext This pic tr h1]

/-- C14 (as stated, refuted): on a constructed manager, push a well-behaved
child and then a child whose `QueryInterface` answers `S_OK` with a null
pointer.  Both pushes return `S_OK`; the state reached has an occupied base
slot and an empty top slot, and a further `DocumentMgr_Push` answers
`TF_E_STACKFULL` although only one context is held. -/
theorem stack_shape_broken_by_null_interface :
    DocumentMgr_Constructor rogueExtern []
      = (S_OK, some 0x1000, some ⟨1, NULL, NULL⟩, [Event.HeapAlloc 0x1000])
    ∧ (stackCall rogueExtern (StackCall.Push 0x4000) ⟨1, 0x2000, NULL⟩ []).1 = S_OK
    ∧ (stackCalls rogueExtern [StackCall.Push 0x2000, StackCall.Push 0x4000]
        (⟨1, NULL, NULL⟩, [Event.HeapAlloc 0x1000])).1 = ⟨1, NULL, 0x2000⟩
    ∧ (DocumentMgr_Push rogueExtern
        (stackCalls rogueExtern [StackCall.Push 0x2000, StackCall.Push 0x4000]
          (⟨1, NULL, NULL⟩, [Event.HeapAlloc 0x1000])).1 0x6000
        (stackCalls rogueExtern [StackCall.Push 0x2000, StackCall.Push 0x4000]
          (⟨1, NULL, NULL⟩, [Event.HeapAlloc 0x1000])).2).1 = TF_E_STACKFULL := by
  decide

/-- C14 (amended): start from a manager made by `DocumentMgr_Constructor` and
make any sequence of `Push`, `Pop` (any flags), `GetTop` and `GetBase` calls.
If the children follow the COM rule that a successful `QueryInterface` for the
context interface stores a non-null pointer, then in the state reached an
occupied base slot has an occupied top slot, and hence `DocumentMgr_Push`
answers `TF_E_STACKFULL` exactly when both slots are occupied.  With or
without that rule, `DocumentMgr_Push` answers `TF_E_STACKFULL` exactly when
the base slot is occupied, and `DocumentMgr_GetTop` and `DocumentMgr_GetBase`
leave the manager, both slots included, as it was. -/
theorem stack_shape_invariant (ext : Extern) (tr0 : List Event)
    (hr : HRESULT) (out : Option Ptr) (This0 : DocumentMgr) (tr1 : List Event)
    (cs : List StackCall)
    (hC : DocumentMgr_Constructor ext tr0 = (hr, out, some This0, tr1)) :
    (conforming ext →
      ((stackCalls ext cs (This0, tr1)).1.contextStack1 ≠ NULL →
        (stackCalls ext cs (This0, tr1)).1.contextStack0 ≠ NULL)
      ∧ (∀ pic, (DocumentMgr_Push ext (stackCalls ext cs (This0, tr1)).1 pic
            (stackCalls ext cs (This0, tr1)).2).1 = TF_E_STACKFULL
          ↔ ((stackCalls ext cs (This0, tr1)).1.contextStack0 ≠ NULL
              ∧ (stackCalls ext cs (This0, tr1)).1.contextStack1 ≠ NULL)))
    ∧ (∀ pic, (DocumentMgr_Push ext (stackCalls ext cs (This0, tr1)).1 pic
          (stackCalls ext cs (This0, tr1)).2).1 = TF_E_STACKFULL
        ↔ (stackCalls ext cs (This0, tr1)).1.contextStack1 ≠ NULL)
    ∧ (∀ ppic, (DocumentMgr_GetTop (stackCalls ext cs (This0, tr1)).1 ppic
          (stackCalls ext cs (This0, tr1)).2).2.2.1 = (stackCalls ext cs (This0, tr1)).1
        ∧ (DocumentMgr_GetBase (stackCalls ext cs (This0, tr1)).1 ppic
          (stackCalls ext cs (This0, tr1)).2).2.2.1 = (stackCalls ext cs (This0, tr1)).1) := by
  obtain ⟨_, _, _, hT, _⟩ := DocumentMgr_Constructor_fresh ext tr0 hr out This0 tr1 hC
  subst hT
  refine ⟨?_, ?_, ?_⟩
  · intro hext
    have hshape := stackCalls_shape ext hext cs (⟨1, NULL, NULL⟩, tr1) (fun h => absurd rfl h)
    refine ⟨hshape, ?_⟩
    intro pic
    rw [DocumentMgr_Push_full_iff]
    exact ⟨fun h1 => ⟨hshape h1, h1⟩, fun h => h.2⟩
  · intro pic
    exact DocumentMgr_Push_full_iff ext _ pic _
  · intro ppic
    constructor
    · unfold DocumentMgr_GetTop
      split_ifs <;> rfl
    · unfold DocumentMgr_GetBase
      split_ifs <;> rfl

theorem stack_shape_invariant_witness :
    ((stackCalls sampleExtern
        [StackCall.Push 0x2000, StackCall.GetTop 0x10, StackCall.Push 0x4000,
          StackCall.GetBase 0x10, StackCall.Pop 0]
        (⟨1, NULL, NULL⟩, [Event.HeapAlloc 0x1000])).1.contextStack1 ≠ NULL →
      (stackCalls sampleExtern
        [StackCall.Push 0x2000, StackCall.GetTop 0x10, StackCall.Push 0x4000,
          StackCall.GetBase 0x10, StackCall.Pop 0]
        (⟨1, NULL, NULL⟩, [Event.HeapAlloc 0x1000])).1.contextStack0 ≠ NULL)
    ∧ (stackCalls sampleExtern
        [StackCall.Push 0x2000, StackCall.GetTop 0x10, StackCall.Push 0x4000,
          StackCall.GetBase 0x10, StackCall.Pop 0]
        (⟨1, NULL, NULL⟩, [Event.HeapAlloc 0x1000])).1 = ⟨1, 0x2000, NULL⟩ :=
  ⟨((stack_shape_invariant sampleExtern [] S_OK (some 0x1000)
      ⟨1, NULL, NULL⟩ [Event.HeapAlloc 0x1000]
      [StackCall.Push 0x2000, StackCall.GetTop 0x10, StackCall.Push 0x4000,
        StackCall.GetBase 0x10, StackCall.Pop 0] (by decide)).1 sampleExtern_conforming).1,
   by decide⟩

end Msctf

/-! ## Reference counting over an object lifetime -/

namespace Msctf

end Msctf

namespace Winegstreamer

end Winegstreamer

namespace Msctf

end Msctf

namespace Winegstreamer

end Winegstreamer

